import Mathlib

/-!
# Verification of the ibaby retrieval-and-fallback engine

Shallow embedding of the core retrieval components of the repository:

* `UnifiedDatasetLoader` (src/ai_engine/unified_dataset_loader.py):
  preference filtering with progressive relaxation, fuzzy food search;
* `ComprehensiveChatbot` (src/ai_engine/comprehensive_chatbot.py):
  rate limiter, external-model fallback adapter, keyword extraction,
  answer composition, response cache;
* the `/api/ask` route (src/routes/chatbot.py): input validation.

Records loaded from the CSV datasets are modelled as association lists of
string-valued columns (a column may be present with an empty value, which
Python treats as falsey, or absent).  Wall-clock times (Python floats from
`time.time()`) are modelled as rationals.
-/

/-- A meal/guidance record: an ordered association list of columns, as
produced by `df.to_dict('records')` plus the injected `source_*` columns. -/
abbrev Meal : Type := List (String × String)

/-- `meal.get(k)` on the record dictionary: value of the first matching
column, `none` when the column is absent. -/
def Meal.get? (m : Meal) (k : String) : Option String :=
  (List.find? (fun p => p.1 == k) m).map (fun p => p.2)

/-- `k in meal` for the record dictionary. -/
def Meal.hasCol (m : Meal) (k : String) : Bool :=
  (List.find? (fun p => p.1 == k) m).isSome

/-- ASCII lowercasing of a character (`str.lower()` on the ASCII range). -/
def lowerChar (c : Char) : Char := if c.isUpper then Char.ofNat (c.toNat + 32) else c

/-- Python `str.lower()` (modelled on the ASCII range; the datasets and
queries handled by the engine are ASCII). -/
def pyLower (s : String) : String := ⟨s.data.map lowerChar⟩

/-- Python `str.strip()`: remove leading and trailing whitespace. -/
def pyStrip (s : String) : String :=
  ⟨((s.data.dropWhile Char.isWhitespace).reverse.dropWhile Char.isWhitespace).reverse⟩

/-- Python's substring test `needle in hay`. -/
def pyIn (needle hay : String) : Bool :=
  hay.data.tails.any (fun t => needle.data.isPrefixOf t)

/-- Python truthiness of an optional string (`None` and `""` are falsey). -/
def truthyS : Option String → Bool
  | none => false
  | some s => !s.isEmpty

/-- Python truthiness of an optional int (`None` and `0` are falsey). -/
def truthyN : Option Nat → Bool
  | none => false
  | some n => n != 0

/-- `UnifiedDatasetLoader._normalize_region`. -/
def normalize_region (region : Option String) : Option String :=
  match region with
  | none => none
  | some r =>
    if r.isEmpty then none
    else
      let value := pyLower (pyStrip r)
      if pyIn "north" value then some "north"
      else if pyIn "south" value then some "south"
      else if value == "all" || value == "any" then none
      else some value

/-- `UnifiedDatasetLoader._normalize_diet`. -/
def normalize_diet (diet : Option String) : Option String :=
  match diet with
  | none => none
  | some d =>
    if d.isEmpty then none
    else
      let value := pyLower (pyStrip d)
      if pyIn "veg" value && !pyIn "non" value then some "veg"
      else if pyIn "non" value then some "nonveg"
      else if pyIn "vegan" value then some "vegan"
      else if value == "mixed" || value == "all" || value == "any" then none
      else some value

/-- `UnifiedDatasetLoader._normalize_season`. -/
def normalize_season (season : Option String) : Option String :=
  match season with
  | none => none
  | some s =>
    if s.isEmpty then none
    else
      let value := pyLower (pyStrip s)
      if pyIn "summer" value then some "summer"
      else if pyIn "winter" value then some "winter"
      else if pyIn "monsoon" value || pyIn "rain" value then some "monsoon"
      else if value == "all" || value == "any" then none
      else some value

/-- `UnifiedDatasetLoader._normalize_condition`. -/
def normalize_condition (condition : Option String) : Option String :=
  match condition with
  | none => none
  | some c =>
    if c.isEmpty then none
    else
      let value := pyLower (pyStrip c)
      if pyIn "gestational" value then some "gestational_diabetes"
      else if pyIn "diabetes" value then some "diabetes"
      else if value == "general" || value == "none" then none
      else some value

/-- `UnifiedDatasetLoader._normalize_meal_type`. -/
def normalize_meal_type (meal_type : Option String) : Option String :=
  match meal_type with
  | none => none
  | some m =>
    if m.isEmpty then none
    else
      let value := pyLower (pyStrip m)
      if value == "snack" || value == "snacks" then some "snack"
      else some value

/-- `UnifiedDatasetLoader._find_meal_type_column`: first of the candidate
column names that is present in the record. -/
def find_meal_type_column (meal : Meal) : Option String :=
  List.find? (fun col => meal.hasCol col)
    ["meal_type", "type", "meal", "breakfast_lunch_dinner", "meal_time"]

/-- `UnifiedDatasetLoader._find_trimester_column`. -/
def find_trimester_column (meal : Meal) : Option String :=
  List.find? (fun col => meal.hasCol col)
    ["trimester", "trimester_wise", "month", "week"]

/-- Region check of `_search_with_filters`: an absent or empty
`source_region` tag is not checked; otherwise the tag must equal the
normalized request or be `'all'`. -/
def regionOk (normalized_region : Option String) (meal : Meal) : Bool :=
  match normalized_region with
  | none => true
  | some req =>
    match meal.get? "source_region" with
    | none => true
    | some v =>
      if v.isEmpty then true
      else pyLower v == req || pyLower v == "all"

/-- Diet check of `_search_with_filters`. -/
def dietOk (normalized_diet : Option String) (meal : Meal) : Bool :=
  match normalized_diet with
  | none => true
  | some req =>
    match meal.get? "source_diet" with
    | none => true
    | some v =>
      if v.isEmpty then true
      else pyLower v == req || pyLower v == "all"

/-- Meal-type check of `_search_with_filters`: only applied when one of the
candidate meal-type columns exists; the column value (default `''`) must
equal the normalized request. -/
def mealTypeOk (normalized_meal_type : Option String) (meal : Meal) : Bool :=
  match normalized_meal_type with
  | none => true
  | some req =>
    match find_meal_type_column meal with
    | none => true
    | some col => pyLower ((meal.get? col).getD "") == req

/-- Condition check of `_search_with_filters` (no `'all'` escape here). -/
def condOk (normalized_condition : Option String) (meal : Meal) : Bool :=
  match normalized_condition with
  | none => true
  | some req =>
    match meal.get? "source_condition" with
    | none => true
    | some v =>
      if v.isEmpty then true
      else pyLower v == req

/-- Season check of `_search_with_filters`. -/
def seasonOk (normalized_season : Option String) (meal : Meal) : Bool :=
  match normalized_season with
  | none => true
  | some req =>
    match meal.get? "source_season" with
    | none => true
    | some v =>
      if v.isEmpty then true
      else pyLower v == req || pyLower v == "all"

/-- Trimester check of `_search_with_filters`: guarded by `if trimester:`;
only applied when a trimester column exists and its value is truthy, and
then `str(trimester)` must occur as a substring of the column value. -/
def trimesterOk (trimester : Option Nat) (meal : Meal) : Bool :=
  if truthyN trimester then
    match find_trimester_column meal with
    | none => true
    | some col =>
      match meal.get? col with
      | none => true
      | some v =>
        if v.isEmpty then true
        else pyIn (toString ((trimester.getD 0) : Nat)) v
  else true

/-- The per-record match of `UnifiedDatasetLoader._search_with_filters`
(the body of the `for meal in self.meals` loop). -/
def mealMatches (nr nd : Option String) (trimester : Option Nat)
    (ns nc nm : Option String) (meal : Meal) : Bool :=
  regionOk nr meal && dietOk nd meal && mealTypeOk nm meal &&
    condOk nc meal && seasonOk ns meal && trimesterOk trimester meal

/-- The filtering computation of `UnifiedDatasetLoader._search_with_filters`
(normalization plus the `for meal in self.meals` loop), without the
surrounding `_preference_cache`.  The cache is modelled separately by
`search_with_filters_cached`: its f-string key is not injective across
argument tuples (`str(None)` is `"None"`, and values may themselves
contain underscores), so cache hits can change observable results. -/
def search_with_filters (meals : List Meal) (region diet_type : Option String)
    (trimester : Option Nat) (season condition meal_type : Option String) :
    List Meal :=
  meals.filter
    (mealMatches (normalize_region region) (normalize_diet diet_type) trimester
      (normalize_season season) (normalize_condition condition)
      (normalize_meal_type meal_type))

/-- `UnifiedDatasetLoader.get_meals_by_preference`: full filter first, then
progressive relaxation dropping season, condition, trimester, meal_type
(each step guarded by the truthiness of the dropped argument), finally the
region+diet-only filter.  `log_relaxation` only prints and is dropped. -/
def get_meals_by_preference (meals : List Meal) (region diet_type : Option String)
    (trimester : Option Nat) (season condition meal_type : Option String) :
    List Meal :=
  let results := search_with_filters meals region diet_type trimester season condition meal_type
  if !results.isEmpty then results
  else
    let r1 := if truthyS season then
        search_with_filters meals region diet_type trimester none condition meal_type
      else []
    if !r1.isEmpty then r1
    else
      let r2 := if truthyS condition then
          search_with_filters meals region diet_type trimester none none meal_type
        else []
      if !r2.isEmpty then r2
      else
        let r3 := if truthyN trimester then
            search_with_filters meals region diet_type none none none meal_type
          else []
        if !r3.isEmpty then r3
        else
          let r4 := if truthyS meal_type then
              search_with_filters meals region diet_type none none none none
            else []
          if !r4.isEmpty then r4
          else search_with_filters meals region diet_type none none none none

/-- Spec-side description of progressive relaxation: the five filter
levels, from fully constrained to region+diet only, dropping season, then
condition, then trimester, then meal type, cumulatively. -/
def relaxationLevels (meals : List Meal) (region diet_type : Option String)
    (trimester : Option Nat) (season condition meal_type : Option String) :
    List (List Meal) :=
  [ search_with_filters meals region diet_type trimester season condition meal_type,
    search_with_filters meals region diet_type trimester none condition meal_type,
    search_with_filters meals region diet_type trimester none none meal_type,
    search_with_filters meals region diet_type none none none meal_type,
    search_with_filters meals region diet_type none none none none ]

/-- Spec-side description: the first (most specific) non-empty relaxation
level, or the empty list when every level is empty. -/
def firstNonemptyLevel (levels : List (List Meal)) : List Meal :=
  (levels.find? (fun l => !l.isEmpty)).getD []

/-- Python `str()` of an optional string, as interpolated by the cache-key
f-string: `None` prints as `"None"`. -/
def pyStrOptS : Option String → String
  | none => "None"
  | some s => s

/-- Python `str()` of an optional int in the cache-key f-string. -/
def pyStrOptN : Option Nat → String
  | none => "None"
  | some n => toString n

/-- Dict lookup `kb[k]` / `k in kb` on an insertion-ordered dict. -/
def dictGet {β : Type} (d : List (String × β)) (k : String) : Option β :=
  (List.find? (fun p => p.1 == k) d).map (fun p => p.2)

/-- The `_search_with_filters` cache key
`f"{region}_{diet_type}_{trimester}_{season}_{condition}_{meal_type}"`,
built from the raw (un-normalized) arguments.  It is not injective:
`meal_type="None"` keys identically to `meal_type=None`, and
underscore-bearing values collide across fields. -/
def cacheKey (region diet_type : Option String) (trimester : Option Nat)
    (season condition meal_type : Option String) : String :=
  pyStrOptS region ++ "_" ++ pyStrOptS diet_type ++ "_" ++ pyStrOptN trimester ++ "_" ++
    pyStrOptS season ++ "_" ++ pyStrOptS condition ++ "_" ++ pyStrOptS meal_type

/-- `UnifiedDatasetLoader._search_with_filters` with its `_preference_cache`
(an insertion-ordered dict, modelled as an association list): serve a hit
unchanged, otherwise filter afresh and record the result while fewer than
`maxSize` (100 in the source) entries are stored.  Returns the results and
the updated cache. -/
def search_with_filters_cached (meals : List Meal) (cache : List (String × List Meal))
    (maxSize : Nat) (region diet_type : Option String) (trimester : Option Nat)
    (season condition meal_type : Option String) :
    List Meal × List (String × List Meal) :=
  let key := cacheKey region diet_type trimester season condition meal_type
  match dictGet cache key with
  | some results => (results, cache)
  | none =>
    let results := search_with_filters meals region diet_type trimester season condition meal_type
    if cache.length < maxSize then (results, cache ++ [(key, results)])
    else (results, cache)

/-- `UnifiedDatasetLoader.get_meals_by_preference` over the stateful,
cache-carrying `_search_with_filters`, with the exact control flow of the
source (each relaxation step guarded by the truthiness of the dropped
argument; the final region+diet pass always runs). -/
def get_meals_by_preference_cached (meals : List Meal)
    (cache : List (String × List Meal)) (maxSize : Nat)
    (region diet_type : Option String) (trimester : Option Nat)
    (season condition meal_type : Option String) :
    List Meal × List (String × List Meal) :=
  let p0 := search_with_filters_cached meals cache maxSize region diet_type trimester season condition meal_type
  if !p0.1.isEmpty then p0
  else
    let p1 := if truthyS season then
        search_with_filters_cached meals p0.2 maxSize region diet_type trimester none condition meal_type
      else ([], p0.2)
    if !p1.1.isEmpty then p1
    else
      let p2 := if truthyS condition then
          search_with_filters_cached meals p1.2 maxSize region diet_type trimester none none meal_type
        else ([], p1.2)
      if !p2.1.isEmpty then p2
      else
        let p3 := if truthyN trimester then
            search_with_filters_cached meals p2.2 maxSize region diet_type none none none meal_type
          else ([], p2.2)
        if !p3.1.isEmpty then p3
        else
          let p4 := if truthyS meal_type then
              search_with_filters_cached meals p3.2 maxSize region diet_type none none none none
            else ([], p3.2)
          if !p4.1.isEmpty then p4
          else search_with_filters_cached meals p4.2 maxSize region diet_type none none none none

/-- The key/result table of the five relaxation levels of one preference
query: what a correct memo table would hold for the cache keys the query
touches. -/
def keyTable (meals : List Meal) (region diet_type : Option String)
    (trimester : Option Nat) (season condition meal_type : Option String) :
    List (String × List Meal) :=
  [ (cacheKey region diet_type trimester season condition meal_type,
     search_with_filters meals region diet_type trimester season condition meal_type),
    (cacheKey region diet_type trimester none condition meal_type,
     search_with_filters meals region diet_type trimester none condition meal_type),
    (cacheKey region diet_type trimester none none meal_type,
     search_with_filters meals region diet_type trimester none none meal_type),
    (cacheKey region diet_type none none none meal_type,
     search_with_filters meals region diet_type none none none meal_type),
    (cacheKey region diet_type none none none none,
     search_with_filters meals region diet_type none none none none) ]

/-- The cache holds no entry that collides with a key of `table` while
disagreeing with its result (no stale colliding entry). -/
def agreesWith (cache table : List (String × List Meal)) : Prop :=
  ∀ p ∈ cache, ∀ q ∈ table, p.1 = q.1 → p.2 = q.2

/-- The key/result table itself maps equal keys to equal results (the
query's own passes collide only harmlessly). -/
def tableFunctional (table : List (String × List Meal)) : Prop :=
  ∀ p ∈ table, ∀ q ∈ table, p.1 = q.1 → p.2 = q.2

instance (cache table : List (String × List Meal)) : Decidable (agreesWith cache table) := by
  unfold agreesWith; infer_instance

instance (table : List (String × List Meal)) : Decidable (tableFunctional table) := by
  unfold tableFunctional; infer_instance

/-! ## Rate limiter (`ComprehensiveChatbot._rate_limit_allows`) -/

/-- One call of `_rate_limit_allows`: pop timestamps older than 60s from the
front of the deque, deny when the quota is already used up, otherwise
record `now` and allow.  The deque is the list front-first; wall-clock
times are rationals. -/
def rate_limit_allows (rate_limit_per_min : Nat) (recent_calls : List ℚ) (now : ℚ) :
    Bool × List ℚ :=
  let remaining := recent_calls.dropWhile (fun t => decide (now - t > 60))
  if rate_limit_per_min ≤ remaining.length then (false, remaining)
  else (true, remaining ++ [now])

/-- Decisions of a sequence of `_rate_limit_allows` calls at the given times. -/
def rlProcess (q : Nat) (recent : List ℚ) : List ℚ → List Bool
  | [] => []
  | t :: ts => (rate_limit_allows q recent t).1 :: rlProcess q (rate_limit_allows q recent t).2 ts

/-- Deque contents after a sequence of calls. -/
def rlState (q : Nat) (recent : List ℚ) : List ℚ → List ℚ
  | [] => recent
  | t :: ts => rlState q (rate_limit_allows q recent t).2 ts

/-- Times of the permitted calls in a sequence of calls. -/
def rlSuccs (q : Nat) (recent : List ℚ) : List ℚ → List ℚ
  | [] => []
  | t :: ts =>
    (if (rate_limit_allows q recent t).1 then [t] else []) ++
      rlSuccs q (rate_limit_allows q recent t).2 ts

/-- Number of times in `l` lying in the trailing 60-second window ending at `t`. -/
def windowCount (t : ℚ) (l : List ℚ) : Nat :=
  (l.filter (fun s => decide (t - s ≤ 60))).length

/-! ## Response cache (`ComprehensiveChatbot.answer_question_structured`) -/

/-- The cache read at the top of `answer_question_structured` (lines
1091-1098): on a key hit, return the stored payload only when
`now - cache_time < ttl`; otherwise fall through (the stale entry is left
in place).  The cache is modelled as key / payload / `_cache_time`
triples. -/
def cacheLookup {π : Type} (cache : List (String × π × ℚ)) (key : String) (now ttl : ℚ) :
    Option π :=
  match List.find? (fun p => p.1 == key) cache with
  | some p => if now - p.2.2 < ttl then some p.2.1 else none
  | none => none

/-- Modelled from the spec: the cache insertion
`self._response_cache[cache_key] = result.copy()` stamping the entry with
`'_cache_time': time.time()`.  In the source the `result` dict literal
(comprehensive_chatbot.py lines 1177-1188) is missing the comma between
`'from_cache': False` and `'_cache_time': time.time()`, which is a Python
syntax error, so the insertion (and the whole module) cannot run as
written; this definition captures the stated intent ("Store in cache for
future requests"). -/
def cacheSet {π : Type} (cache : List (String × π × ℚ)) (key : String) (payload : π)
    (now : ℚ) : List (String × π × ℚ) :=
  (key, payload, now) :: cache.filter (fun p => p.1 != key)

/-! ## External fallback adapter (`ComprehensiveChatbot._ask_solar`) -/

/-- Outcome of the single remote chat-completions request. -/
inductive SolarOutcome where
  | success (content : String)
  | timeout
  | transportError
deriving DecidableEq

/-- `ComprehensiveChatbot._ask_solar`: returns `""` when the provider is
not configured (`solar_available`, key, model and client collapse into one
flag), the stripped content on success, and `""` on a timeout or any
raised exception. -/
def ask_solar (solar_available : Bool) (outcome : SolarOutcome) : String :=
  if !solar_available then ""
  else
    match outcome with
    | .success content => pyStrip content
    | .timeout => ""
    | .transportError => ""

/-- Number of remote request attempts a single `_ask_solar` call makes:
one when the provider is configured, none otherwise (never a retry). -/
def ask_solar_attempts (solar_available : Bool) (_outcome : SolarOutcome) : Nat :=
  if solar_available then 1 else 0

/-! ## Keyword extraction and intent classification -/

/-- `common_foods` list of `ComprehensiveChatbot.extract_keywords`. -/
def common_foods : List String :=
  [ "egg", "eggs", "milk", "fish", "meat", "chicken", "vegetables", "fruits",
    "dairy", "nuts", "grains", "rice", "wheat", "lentil", "dal",
    "papaya", "pineapple", "mango", "banana", "apple", "spinach", "orange",
    "yogurt", "curd", "cheese", "paneer", "ghee", "butter",
    "potato", "tomato", "onion", "garlic", "ginger",
    "bread", "roti", "chapati", "idli", "dosa",
    "sweet", "chocolate", "coffee", "tea", "juice",
    "almond", "walnut", "cashew", "dates", "raisins",
    "salmon", "tuna", "shrimp", "prawn",
    "mutton", "lamb", "pork", "beef",
    "avocado", "quinoa", "tofu", "hummus", "pomegranate", "oats",
    "broccoli", "carrot", "cucumber", "lettuce", "kale",
    "strawberry", "blueberry", "watermelon", "grapes",
    "brown rice", "white rice", "coconut", "almond milk", "soy milk" ]

/-- `skip_words` set of `ComprehensiveChatbot.extract_keywords`. -/
def skip_words : List String :=
  [ "can", "could", "should", "would", "is", "are", "was", "were",
    "have", "has", "had", "do", "does", "did", "will", "shall",
    "eat", "drink", "consume", "take", "safe", "okay", "good", "bad",
    "during", "pregnancy", "pregnant", "trimester", "women", "woman",
    "about", "what", "which", "when", "where", "who", "how", "why",
    "the", "a", "an", "and", "or", "but", "in", "on", "at", "to", "for",
    "with", "from", "of", "by", "as", "this", "that", "these", "those",
    "it", "its", "my", "your", "me", "you", "he", "she", "we", "they" ]

/-- Python `str.replace(c, '')` for a single character. -/
def pyRemoveChar (c : Char) (s : String) : String := ⟨s.data.filter (fun x => x ≠ c)⟩

/-- Python `str.split()`: split on whitespace runs, dropping empty pieces. -/
def pySplitWs (s : String) : List String :=
  ((s.data.splitOnP Char.isWhitespace).map (fun l => (⟨l⟩ : String))).filter
    (fun w => !w.isEmpty)

/-- A food/guidance info record (a plain dict of string fields). -/
abbrev Info : Type := List (String × String)

/-- Python `info.get(k, d)` with a string default. -/
def Info.getS (info : Info) (k d : String) : String :=
  ((List.find? (fun p => p.1 == k) info).map (fun p => p.2)).getD d

/-- The chatbot knowledge base built by
`_build_comprehensive_knowledge_base` (contents come from the CSV
datasets and are a parameter of the model). -/
structure KnowledgeBase where
  foods_to_eat : List (String × Info)
  foods_to_avoid : List (String × Info)
  regional_foods : List (String × List Meal)
  seasonal_foods : List (String × List Meal)
  trimester_specific : List (Nat × List Meal)

/-- The keyword list of `ComprehensiveChatbot.extract_keywords` in
discovery order, before the final `list(set(keywords))[:5]`: knowledge-base
keys found in the lowercased question, then `common_foods` hits, then the
length-≥3 non-stopword tokens. -/
def rawKeywords (kb : KnowledgeBase) (question : String) : List String :=
  let question_lower := pyLower question
  let ks1 := (kb.foods_to_eat.map (fun p => p.1)).filter (fun food => pyIn food question_lower)
  let ks2 := ks1 ++ (kb.foods_to_avoid.map (fun p => p.1)).filter (fun food => pyIn food question_lower)
  let ks3 := ks2 ++ common_foods.filter
    (fun food => pyIn food question_lower && !ks2.contains food)
  let words := pySplitWs (pyRemoveChar ',' (pyRemoveChar '!' (pyRemoveChar '?' question_lower)))
  ks3 ++ (words.foldl (fun acc word =>
    if 3 ≤ word.data.length && !skip_words.contains word && !(ks3 ++ acc).contains word
    then acc ++ [word] else acc) [])

/-- `ComprehensiveChatbot.extract_keywords`: the discovery-ordered keyword
list passed through `list(set(keywords))[:5]`.  CPython iterates a `set`
in an unspecified, hash-dependent order; `setOrder` is that enumeration
(any function returning the set's elements in some order). -/
def extract_keywords (setOrder : List String → List String) (kb : KnowledgeBase)
    (question : String) : List String :=
  (setOrder (rawKeywords kb question)).take 5

/-- `ComprehensiveChatbot.classify_intent`. -/
def classify_intent (question : String) : String :=
  let question_lower := pyLower question
  if ["meal plan", "diet plan", "what to eat", "what should i eat", "daily diet",
      "menu", "breakfast", "lunch", "dinner", "snack"].any (fun w => pyIn w question_lower)
  then "meal_plan"
  else if ["can i eat", "is it safe", "should i avoid", "can i have", "safe to eat",
      "okay to eat"].any (fun w => pyIn w question_lower)
  then "safety_check"
  else if ["avoid", "dont eat", "not eat", "shouldn\x27t eat", "dangerous",
      "foods to avoid", "what not to"].any (fun w => pyIn w question_lower)
  then "foods_to_avoid"
  else if ["benefits", "good for", "why eat", "nutrients", "nutritional", "advantages",
      "helps with", "benefit of"].any (fun w => pyIn w question_lower)
  then "benefits"
  else if ["trimester", "first trimester", "second trimester", "third trimester",
      "1st", "2nd", "3rd", "1 trimester", "2 trimester", "3 trimester"].any
      (fun w => pyIn w question_lower)
  then "trimester_specific"
  else if ["summer", "winter", "monsoon", "seasonal", "season"].any
      (fun w => pyIn w question_lower)
  then "seasonal"
  else if ["north indian", "south indian", "regional"].any (fun w => pyIn w question_lower)
  then "regional"
  else "general"

/-! ## Answer composition (`ComprehensiveChatbot.answer_question` and handlers)

Side effects are made observable: every `_rate_limit_allows` call and
every `_ask_solar` call is recorded as an event, in execution order.  The
`n`-th rate-limiter consultation of an execution returns `rateOk n`
(the limiter's time-dependent behaviour is verified separately); the
external model's reply to a prompt is the oracle `solar` (`""` models
"unavailable or failed", exactly what `_ask_solar` returns then). -/

/-- Observable effects of an execution of the answer composition. -/
inductive Event where
  | rateCheck (allowed : Bool)
  | solarCall (prompt : String)
deriving DecidableEq

/-- A Python value that is statically either a list of strings or a plain
string (`_handle_safety_question` returns `str` on rate-limit denial and
`List[str]` otherwise). -/
inductive PyStrOrList where
  | strs (parts : List String)
  | pystr (s : String)
deriving DecidableEq

/-- Python truthiness of a `PyStrOrList`. -/
def PyStrOrList.falsy : PyStrOrList → Bool
  | .strs l => l.isEmpty
  | .pystr s => s.isEmpty

/-- `'\n'.join(x)`: over a list joins the items, over a string joins its
characters. -/
def PyStrOrList.joinNl : PyStrOrList → String
  | .strs l => String.intercalate "\n" l
  | .pystr s => String.intercalate "\n" (s.data.map (fun c => String.mk [c]))

/-- Environment of one chatbot execution: knowledge base and unified
loader contents (loaded from the CSV datasets), the external model oracle,
the decisions of the successive rate-limiter consultations, and the
`set` enumeration order used by `extract_keywords`. -/
structure ChatEnv where
  kb : KnowledgeBase
  meals : List Meal
  solar : String → String
  rateOk : Nat → Bool
  setOrder : List String → List String

/-- ASCII uppercasing of a character. -/
def upperChar (c : Char) : Char := if c.isLower then Char.ofNat (c.toNat - 32) else c

/-- Python `str.upper()` (ASCII range). -/
def pyUpper (s : String) : String := ⟨s.data.map upperChar⟩

/-- Helper for `pyTitle`: the flag records whether the previous character
was alphabetic. -/
def titleAux : Bool → List Char → List Char
  | _, [] => []
  | prevAlpha, c :: cs =>
    if c.isAlpha then
      (if prevAlpha then lowerChar c else upperChar c) :: titleAux true cs
    else c :: titleAux false cs

/-- Python `str.title()` (ASCII range). -/
def pyTitle (s : String) : String := ⟨titleAux false s.data⟩

/-- Helper for `pyReplace`; the pattern is non-empty, so every step
consumes at least one character and `s.length` fuel suffices. -/
def replaceAllAux (pat rep : List Char) : Nat → List Char → List Char
  | 0, s => s
  | fuel + 1, s =>
    match s with
    | [] => []
    | c :: cs =>
      if pat.isPrefixOf s then rep ++ replaceAllAux pat rep fuel (s.drop pat.length)
      else c :: replaceAllAux pat rep fuel cs

/-- Python `str.replace(pat, rep)` for a non-empty pattern. -/
def pyReplace (s pat rep : String) : String :=
  if pat.isEmpty then s
  else ⟨replaceAllAux pat.data rep.data s.data.length s.data⟩

/-- Python `repr` of a string (quoting only; the engine's data needs no
escaping). -/
def pyReprStr (s : String) : String := "\x27" ++ s ++ "\x27"

/-- Python `str(record)` for a record dict, as interpolated by f-strings in
the seasonal/trimester/meal-plan handlers. -/
def pyDictRepr (m : Meal) : String :=
  "\x7b" ++ String.intercalate ", " (m.map (fun p => pyReprStr p.1 ++ ": " ++ pyReprStr p.2)) ++ "\x7d"

/-- Python `a or b or ...` over optional strings: the first truthy value. -/
def pyOrS : List (Option String) → Option String
  | [] => none
  | some v :: rest => if v.isEmpty then pyOrS rest else some v
  | none :: rest => pyOrS rest

/-- `ComprehensiveChatbot._get_general_food_safety`: canned guidance for a
handful of food families, otherwise one ungated external-model call with a
canned fallback. -/
def get_general_food_safety (env : ChatEnv) (food : String) : String × List Event :=
  let food_lower := pyLower food
  if ["fish", "salmon", "tuna", "shrimp", "prawn", "seafood"].contains food_lower then
    ("**" ++ pyTitle food ++ ":**\n" ++
     "✅ **Generally Safe** (when cooked properly)\n" ++
     "   Benefits: High in protein, omega-3 fatty acids (DHA/EPA) for baby\x27s brain development\n" ++
     "   ⚠️ **Important Tips:**\n" ++
     "   • Choose low-mercury fish: salmon, sardines, trout, anchovies\n" ++
     "   • Cook thoroughly - no raw/undercooked fish, sushi, or sashimi\n" ++
     "   • Limit to 2-3 servings per week (340g total)\n" ++
     "   • Avoid high-mercury fish: shark, swordfish, king mackerel, tilefish\n" ++
     "   • Fresh is best - avoid smoked or cured fish\n", [])
  else if ["egg", "eggs"].contains food_lower then
    ("**" ++ pyTitle food ++ ":**\n" ++
     "✅ **Safe when cooked**\n" ++
     "   Benefits: Excellent protein, choline for baby\x27s brain development\n" ++
     "   ⚠️ **Important:**\n" ++
     "   • Always cook completely - both yolk and white should be firm\n" ++
     "   • Avoid raw/runny eggs, mayonnaise, raw cookie dough\n" ++
     "   • 1-2 eggs per day is safe and beneficial\n", [])
  else if ["milk", "dairy", "cheese", "yogurt", "curd"].contains food_lower then
    ("**" ++ pyTitle food ++ ":**\n" ++
     "✅ **Safe - Pasteurized only**\n" ++
     "   Benefits: Calcium, protein, vitamin D for bone development\n" ++
     "   ⚠️ **Important:**\n" ++
     "   • Only consume pasteurized dairy products\n" ++
     "   • Avoid soft cheeses (feta, brie, camembert) unless pasteurized\n" ++
     "   • 2-3 servings per day recommended\n", [])
  else if ["meat", "chicken", "mutton", "lamb", "pork", "beef"].contains food_lower then
    ("**" ++ pyTitle food ++ ":**\n" ++
     "✅ **Safe when fully cooked**\n" ++
     "   Benefits: High-quality protein, iron, B vitamins\n" ++
     "   ⚠️ **Important:**\n" ++
     "   • Cook completely - no pink meat\n" ++
     "   • Use meat thermometer (165°F/74°C minimum)\n" ++
     "   • Avoid deli meats unless heated until steaming\n" ++
     "   • Good source of iron to prevent anemia\n", [])
  else if ["fruits", "vegetables", "fruit", "vegetable"].contains food_lower then
    ("**" ++ pyTitle food ++ ":**\n" ++
     "✅ **Highly recommended**\n" ++
     "   Benefits: Vitamins, minerals, fiber, antioxidants\n" ++
     "   ⚠️ **Important:**\n" ++
     "   • Wash thoroughly before eating\n" ++
     "   • Peel when possible\n" ++
     "   • 5+ servings per day recommended\n" ++
     "   • Variety is key\n", [])
  else
    let prompt := "Is " ++ food ++ " safe to eat during pregnancy? What are the benefits and risks?"
    let solar_ans := env.solar prompt
    if !solar_ans.isEmpty then
      ("**" ++ pyTitle food ++ ":**\n✅ AI Response (Solar):\n" ++ solar_ans ++ "\n",
       [.solarCall prompt])
    else
      ("**" ++ pyTitle food ++ ":**\n" ++
       "For specific safety information about this food, please consult your healthcare provider.\n" ++
       "\n**General Safety Guidelines:**\n" ++
       "• Cook all animal products thoroughly\n" ++
       "• Wash all produce\n" ++
       "• Avoid unpasteurized products\n" ++
       "• Choose fresh over processed when possible\n", [.solarCall prompt])

/-- `ComprehensiveChatbot._handle_safety_question`: classify the keywords
against the knowledge base, consult the rate limiter (returning a plain
string on denial), then build the local answer, falling back to
`_get_general_food_safety` per keyword when nothing was found. -/
def handle_safety_question (env : ChatEnv) (keywords : List String) (n : Nat) :
    PyStrOrList × List Event × Nat :=
  let pairs := keywords.foldl
    (fun (acc : List (String × Info) × List (String × Info)) keyword =>
      match dictGet env.kb.foods_to_avoid keyword with
      | some info => (acc.1, acc.2 ++ [(keyword, info)])
      | none =>
        match dictGet env.kb.foods_to_eat keyword with
        | some info => (acc.1 ++ [(keyword, info)], acc.2)
        | none => acc) ([], [])
  let safe_foods := pairs.1
  let unsafe_foods := pairs.2
  if !env.rateOk n then
    (.pystr "Rate limit reached. Please try again in a minute.", [.rateCheck false], n + 1)
  else
    let parts1 : List String :=
      if !unsafe_foods.isEmpty then
        unsafe_foods.foldl (fun acc p =>
          acc ++ ["❌ **" ++ pyTitle p.1 ++ "**"] ++
          (if p.2.getS "risk" "" ≠ "" then ["   Reason: " ++ p.2.getS "risk" ""] else []) ++
          (if p.2.getS "recommendation" "" ≠ "" then
            ["   Recommendation: " ++ p.2.getS "recommendation" ""] else []) ++
          (if p.2.getS "remarks" "" ≠ "" then ["   Note: " ++ p.2.getS "remarks" ""] else []) ++
          (if p.2.getS "examples" "" ≠ "" then ["   Examples: " ++ p.2.getS "examples" ""] else []) ++
          [""]) ["⚠️ **FOODS TO AVOID:**\n"]
      else []
    let parts2 : List String :=
      if !safe_foods.isEmpty then
        safe_foods.foldl (fun acc p =>
          acc ++ ["✓ **" ++ pyTitle p.1 ++ "**"] ++
          (if p.2.getS "nutrients" "" ≠ "" then ["   Nutrients: " ++ p.2.getS "nutrients" ""] else []) ++
          (if p.2.getS "benefit" "" ≠ "" then ["   Benefits: " ++ p.2.getS "benefit" ""] else []) ++
          (if p.2.getS "food_group" "" ≠ "" then ["   Food Group: " ++ p.2.getS "food_group" ""] else []) ++
          (if p.2.getS "remarks" "" ≠ "" then ["   💡 Tip: " ++ p.2.getS "remarks" ""] else []) ++
          [""]) ["\n✅ **SAFE & RECOMMENDED FOODS:**\n"]
      else []
    if safe_foods.isEmpty && unsafe_foods.isEmpty && !keywords.isEmpty then
      let r := keywords.foldl (fun (acc : List String × List Event) keyword =>
        let g := get_general_food_safety env keyword
        (acc.1 ++ [g.1], acc.2 ++ g.2)) (["**Food Safety Information**\n"], [])
      (.strs (parts1 ++ parts2 ++ r.1), [.rateCheck true] ++ r.2, n + 1)
    else
      let tips : List String :=
        if !unsafe_foods.isEmpty || !safe_foods.isEmpty then
          ["\n📌 **General Safety Tips:**",
           "• Always wash fruits and vegetables thoroughly",
           "• Cook meat, fish, and eggs completely",
           "• Avoid unpasteurized dairy products",
           "• Consult your doctor if you have specific concerns"]
        else []
      (.strs (parts1 ++ parts2 ++ tips), [.rateCheck true], n + 1)

/-- Dict lookup with natural-number keys (`trimester_specific`). -/
def dictGetNat {β : Type} (d : List (Nat × β)) (k : Nat) : Option β :=
  (List.find? (fun p => p.1 == k) d).map (fun p => p.2)

/-- `ComprehensiveChatbot._handle_benefits_question`: per keyword, local
knowledge-base hit or an ungated external-model call; generic nutrient
bullets when nothing was found at all. -/
def handle_benefits_question (env : ChatEnv) (keywords : List String) :
    PyStrOrList × List Event :=
  let r := keywords.foldl
    (fun (acc : List String × List Event × Bool) keyword =>
      match dictGet env.kb.foods_to_eat keyword with
      | some info =>
        (acc.1 ++ ["\n**" ++ pyTitle keyword ++ ":**"] ++
          (if info.getS "nutrients" "" ≠ "" then ["  🔬 Nutrients: " ++ info.getS "nutrients" ""] else []) ++
          (if info.getS "benefit" "" ≠ "" then ["  💪 Benefits: " ++ info.getS "benefit" ""] else []) ++
          (if info.getS "food_group" "" ≠ "" then ["  📁 Food Group: " ++ info.getS "food_group" ""] else []) ++
          (if info.getS "trimester" "" ≠ "" then ["  🤰 Best for: Trimester " ++ info.getS "trimester" ""] else []) ++
          (if info.getS "remarks" "" ≠ "" then ["  💡 Note: " ++ info.getS "remarks" ""] else []) ++
          [""],
         acc.2.1, true)
      | none =>
        let prompt := "What are the nutritional benefits and risks of eating " ++ keyword ++
          " during pregnancy?"
        let solar_ans := env.solar prompt
        if !solar_ans.isEmpty then
          (acc.1 ++ ["\n**" ++ pyTitle keyword ++ " (AI-Powered, Solar):**", solar_ans, ""],
           acc.2.1 ++ [.solarCall prompt], true)
        else
          (acc.1, acc.2.1 ++ [.solarCall prompt], acc.2.2))
    (["🌟 **NUTRITIONAL BENEFITS & RECOMMENDATIONS**\n"], [], false)
  if !r.2.2 then
    (.strs (r.1 ++
      ["**Key Nutrients for Pregnancy:**\n",
       "• **Folic Acid**: Prevents neural tube defects (leafy greens, fortified cereals)",
       "• **Iron**: Prevents anemia, supports blood production (lean meat, beans, spinach)",
       "• **Calcium**: Builds baby\x27s bones and teeth (dairy, fortified foods)",
       "• **Protein**: Supports baby\x27s growth (eggs, meat, legumes, nuts)",
       "• **DHA/Omega-3**: Brain development (fish, walnuts, flaxseed)",
       "• **Vitamin D**: Bone health, immunity (sunlight, fortified milk)",
       "• **Vitamin C**: Iron absorption, immunity (citrus, berries)"]), r.2.1)
  else (.strs r.1, r.2.1)

/-- `ComprehensiveChatbot._handle_general_question`: local hits from
`foods_to_eat`, else one ungated external-model call per keyword (first
three). -/
def handle_general_question (env : ChatEnv) (keywords : List String)
    (_trimester : Option Nat) : PyStrOrList × List Event :=
  let r := keywords.foldl
    (fun (acc : List String × Bool) keyword =>
      match dictGet env.kb.foods_to_eat keyword with
      | some info =>
        (acc.1 ++ ["✓ " ++ pyTitle keyword,
          "  Nutrients: " ++ info.getS "nutrients" "Various minerals and vitamins",
          "  Benefit: " ++ info.getS "benefit" "Supports pregnancy health" ++ "\n"], true)
      | none => acc) ([], false)
  if !r.2 && !keywords.isEmpty then
    let s := (keywords.take 3).foldl
      (fun (acc : List String × List Event) keyword =>
        let prompt := "Tell me about " ++ keyword ++ " during pregnancy - is it safe? What are the benefits?"
        let solar_info := env.solar prompt
        if !solar_info.isEmpty then
          (acc.1 ++ ["🤖 **" ++ pyTitle keyword ++ "** (AI-Powered, Solar):", solar_info, ""],
           acc.2 ++ [.solarCall prompt])
        else (acc.1, acc.2 ++ [.solarCall prompt])) (r.1, [])
    (.strs s.1, s.2)
  else (.strs r.1, [])

/-- `ComprehensiveChatbot._handle_foods_to_avoid_question`: group the
`foods_to_avoid` entries by category (first six categories, five foods
each) plus fixed guidelines.  Purely local. -/
def handle_foods_to_avoid_question (env : ChatEnv) : PyStrOrList :=
  let by_category := env.kb.foods_to_avoid.foldl
    (fun (acc : List (String × List (String × Info))) p =>
      let category :=
        match dictGet p.2 "category" with
        | some v => v
        | none => match dictGet p.2 "food_group" with
          | some v => v
          | none => "General"
      if (List.find? (fun q => q.1 == category) acc).isSome then
        acc.map (fun q => if q.1 == category then (q.1, q.2 ++ [p]) else q)
      else acc ++ [(category, [p])]) []
  let shown := (by_category.take 6).foldl
    (fun acc cat =>
      acc ++ ["\n**📌 " ++ cat.1 ++ ":**"] ++
        (cat.2.take 5).map (fun p =>
          let risk :=
            match dictGet p.2 "risk" with
            | some v => v
            | none => match dictGet p.2 "Health_Risk" with
              | some v => v
              | none => "Not recommended"
          "  • **" ++ pyTitle p.1 ++ "**: " ++ risk))
    ["🚫 **COMPREHENSIVE LIST - FOODS TO AVOID DURING PREGNANCY**\n"]
  .strs (shown ++
    ["\n**⚠️ General Guidelines:**",
     "• Avoid all raw or undercooked meats, fish, and eggs",
     "• Skip unpasteurized milk, cheese, and juices",
     "• Limit high-mercury fish (shark, swordfish, king mackerel)",
     "• No alcohol, smoking, or recreational drugs",
     "• Wash all produce thoroughly before eating"])

/-- `ComprehensiveChatbot._handle_meal_plan_question`.  Purely local. -/
def handle_meal_plan_question (env : ChatEnv) (trimester : Option Nat)
    (region _season : Option String) (_keywords : List String) : PyStrOrList :=
  let t := trimester.getD 0
  let parts1 : List String :=
    if truthyN trimester && [1, 2, 3].contains t then
      let guidance :=
        if t == 1 then
          "Focus on managing morning sickness and building foundational nutrition with folic acid and B vitamins."
        else if t == 2 then
          "This is the growth phase - increase calories (+300/day), protein, calcium, and iron intake."
        else
          "Prepare for delivery with high protein, fiber for digestion, and continued iron/calcium."
      let head := ["🍽️ **MEAL PLAN - TRIMESTER " ++ toString t ++ "**\n",
        "🎯 **Goal**: " ++ guidance ++ "\n"]
      let trimester_foods := (dictGetNat env.kb.trimester_specific t).getD []
      if !trimester_foods.isEmpty then
        head ++
        ["**🌞 Sample Day Meal Plan:**\n",
         "🍳 **Breakfast:**",
         "  • Whole grain toast with peanut butter",
         "  • Scrambled eggs or omelette",
         "  • Fresh fruit (banana, apple, berries)",
         "  • Glass of milk or fortified plant milk",
         "",
         "🥗 **Mid-Morning Snack:**",
         "  • Handful of nuts (almonds, walnuts)",
         "  • Yogurt with honey",
         "",
         "🍛 **Lunch:**",
         "  • Brown rice or roti (2-3)",
         "  • Dal (lentils) for protein",
         "  • Seasonal vegetables curry",
         "  • Salad with cucumber, tomato, carrots",
         "  • Buttermilk or curd",
         "",
         "🍏 **Evening Snack:**",
         "  • Fruit smoothie or fresh juice",
         "  • Whole grain crackers with cheese",
         "",
         "🍲 **Dinner:**",
         "  • Chapati or rice",
         "  • Grilled fish/chicken or paneer",
         "  • Leafy green vegetables (spinach, methi)",
         "  • Light soup or dal",
         ""]
      else head
    else []
  let parts2 : List String :=
    if truthyS region then
      let regional_meals := (dictGet env.kb.regional_foods (region.getD "")).getD []
      if !regional_meals.isEmpty then
        ["\n**🌏 " ++
           pyReplace (pyReplace (pyTitle (region.getD "")) "veg" " Veg") "nonveg" " Non-Veg" ++
           " Options:**"] ++
        ((regional_meals.take 5).filterMap (fun meal =>
          let meal_name := (pyOrS [meal.get? "meal", meal.get? "dish"]).getD (pyDictRepr meal)
          if meal_name.isEmpty then none else some ("  • " ++ meal_name)))
      else []
    else []
  .strs (parts1 ++ parts2 ++
    ["\n**💡 Meal Planning Tips:**",
     "• Eat 5-6 small meals throughout the day",
     "• Stay hydrated - drink 8-10 glasses of water",
     "• Include variety from all food groups",
     "• Take prenatal vitamins as prescribed",
     "• Listen to your body and adjust portions"])

/-- `ComprehensiveChatbot._handle_trimester_question`.  Purely local. -/
def handle_trimester_question (env : ChatEnv) (trimester : Option Nat) : PyStrOrList :=
  let t := trimester.getD 0
  if !(truthyN trimester && [1, 2, 3].contains t) then
    .strs ["Please specify which trimester (1, 2, or 3) you\x27d like information for."]
  else
    let plans := (dictGetNat env.kb.trimester_specific t).getD []
    .strs (["🤰 TRIMESTER " ++ toString t ++ " NUTRITION GUIDE\n"] ++
      ((plans.take 8).enum.map (fun p =>
        "  " ++ toString (p.1 + 1) ++ ". " ++ pyDictRepr p.2)))

/-- `ComprehensiveChatbot._handle_seasonal_question`.  Purely local (its
meal lookup goes through the unified loader's preference filter). -/
def handle_seasonal_question (env : ChatEnv) (season : Option String)
    (_keywords : List String) : PyStrOrList :=
  let seasonal_data :=
    if truthyS season then (dictGet env.kb.seasonal_foods (season.getD "")).getD [] else []
  let parts1 : List String :=
    if !seasonal_data.isEmpty then
      let season_title := if truthyS season then pyTitle (season.getD "") else "Seasonal"
      ["🌤️ " ++ pyUpper season_title ++ " PREGNANCY DIET\n"] ++
        (seasonal_data.take 10).map (fun item => "  • " ++ pyDictRepr item)
    else []
  if parts1.isEmpty && truthyS season then
    let seasonal_meals := get_meals_by_preference env.meals none none none season none none
    if !seasonal_meals.isEmpty then
      .strs (["🌤️ " ++ pyTitle (season.getD "") ++ " MEAL IDEAS:\n"] ++
        ((seasonal_meals.take 8).filterMap (fun meal =>
          match pyOrS [meal.get? "meal", meal.get? "dish", meal.get? "food", meal.get? "name"] with
          | some meal_name => some ("  • " ++ meal_name)
          | none => none)))
    else .strs parts1
  else .strs parts1

/-- `ComprehensiveChatbot._get_general_answer`: the static canned answers
per intent. -/
def get_general_answer (intent : String) (trimester : Option Nat) : String :=
  if intent == "safety_check" then
    "For safety questions about specific foods, please mention the food name and I\x27ll provide detailed information about whether it\x27s safe during pregnancy."
  else if intent == "foods_to_avoid" then
    "During pregnancy, generally avoid: raw/undercooked meats, unpasteurized dairy, high-mercury fish, raw eggs, and unwashed produce. Ask me about specific foods!"
  else if intent == "meal_plan" then
    "I can help create a meal plan for you! Tell me your preferences (vegetarian/non-vegetarian), region, and current trimester (you\x27re in Trimester " ++
      (if truthyN trimester then toString (trimester.getD 0) else "?") ++ ")"
  else if intent == "trimester_specific" then
    "Each trimester has specific nutritional needs. Tell me your current trimester and I can provide tailored recommendations."
  else if intent == "seasonal" then
    "Seasonal diets help maximize fresh produce benefits. Which season are you in (summer/winter/monsoon)?"
  else if intent == "benefits" then
    "Ask about specific foods and I\x27ll tell you their nutritional benefits and why they\x27re important during pregnancy."
  else
    "I\x27m your pregnancy nutrition expert! Ask me about:\n  • Food safety (can I eat...?)\n  • Meal plans\n  • Nutritional benefits\n  • Trimester-specific needs\n  • Seasonal diets"

/-- Tail of `ComprehensiveChatbot.answer_question` after the handler
dispatch: empty-answer fallback (rate-limited external call, then canned
answer), join, trimester tip, and the empty-string re-check. -/
def compose_answer (env : ChatEnv) (question intent : String) (trimester : Option Nat)
    (answer_parts : PyStrOrList) (evs : List Event) (n : Nat) : String × List Event × Nat :=
  if answer_parts.falsy then
    if env.rateOk n then
      let solar_ans := env.solar question
      if !solar_ans.isEmpty then
        ("🤖 **AI-Powered Answer (Solar):**\n\n" ++ solar_ans ++
           "\n\n💡 Note: This is AI-generated advice. Always consult your doctor for personalized guidance.",
         evs ++ [.rateCheck true, .solarCall question], n + 1)
      else
        (get_general_answer intent trimester, evs ++ [.rateCheck true, .solarCall question], n + 1)
    else
      (get_general_answer intent trimester, evs ++ [.rateCheck false], n + 1)
  else
    let final0 := answer_parts.joinNl
    let final :=
      if truthyN trimester then
        final0 ++ "\n\n💡 Tip: Always consult your doctor before making major dietary changes."
      else final0
    if (pyStrip final).isEmpty then
      if env.rateOk n then
        let solar_ans := env.solar question
        if !solar_ans.isEmpty then
          ("🤖 **AI-Powered Answer (Solar):**\n\n" ++ solar_ans ++
             "\n\n💡 Note: This is AI-generated advice. Always consult your doctor for personalized guidance.",
           evs ++ [.rateCheck true, .solarCall question], n + 1)
        else
          (get_general_answer intent trimester, evs ++ [.rateCheck true, .solarCall question], n + 1)
      else
        (get_general_answer intent trimester, evs ++ [.rateCheck false], n + 1)
    else (final, evs, n)

/-- `ComprehensiveChatbot.answer_question`: classify the intent, extract
keywords, dispatch to the matching handler, then compose the final
answer.  The result carries the answer text, the observable events in
order, and the rate-limiter consultation counter. -/
def answer_question (env : ChatEnv) (question : String) (trimester : Option Nat)
    (region season : Option String) (n : Nat) : String × List Event × Nat :=
  let intent := classify_intent question
  let keywords := extract_keywords env.setOrder env.kb question
  if intent == "meal_plan" then
    compose_answer env question intent trimester
      (handle_meal_plan_question env trimester region season keywords) [] n
  else if intent == "foods_to_avoid" then
    compose_answer env question intent trimester (handle_foods_to_avoid_question env) [] n
  else if intent == "trimester_specific" then
    compose_answer env question intent trimester (handle_trimester_question env trimester) [] n
  else if intent == "seasonal" then
    compose_answer env question intent trimester (handle_seasonal_question env season keywords) [] n
  else if keywords.isEmpty then
    (get_general_answer intent trimester, [], n)
  else if intent == "safety_check" || pyIn "can i" (pyLower question) ||
      pyIn "is it safe" (pyLower question) then
    let r := handle_safety_question env keywords n
    compose_answer env question intent trimester r.1 r.2.1 r.2.2
  else if intent == "benefits" then
    let r := handle_benefits_question env keywords
    compose_answer env question intent trimester r.1 r.2 n
  else
    let r := handle_general_question env keywords trimester
    compose_answer env question intent trimester r.1 r.2 n

/-! ## Fuzzy food search (`UnifiedDatasetLoader.search_food_fuzzy`)

`difflib.SequenceMatcher` is modelled by its documented behaviour for the
short strings the food index holds (no junk, no autojunk): the longest
matching block — ties broken by the earliest start in `a`, then in `b` —
recursively on both sides. -/

/-- Length of the longest common prefix of two character lists. -/
def commonPrefixLen : List Char → List Char → Nat
  | a :: as, b :: bs => if a = b then commonPrefixLen as bs + 1 else 0
  | _, _ => 0

/-- Length of the matching run of `a` and `b` starting at positions `i`
and `j`. -/
def matchLenAt (a b : List Char) (i j : Nat) : Nat :=
  commonPrefixLen (a.drop i) (b.drop j)

/-- `SequenceMatcher.find_longest_match` over the full ranges: the triple
`(i, j, size)` of a maximal matching block, preferring smaller `i`, then
smaller `j`. -/
def find_longest_match (a b : List Char) : Nat × Nat × Nat :=
  (List.range (a.length + 1)).foldl (fun best i =>
    (List.range (b.length + 1)).foldl (fun best j =>
      let k := matchLenAt a b i j
      if best.2.2 < k then (i, j, k) else best) best) (0, 0, 0)

/-- Total size of the matching blocks (`sum(size for block in
get_matching_blocks())`), fuelled recursion; both recursive calls strictly
shorten `a`, so `a.length + 1` fuel suffices. -/
def matchingTotalAux : Nat → List Char → List Char → Nat
  | 0, _, _ => 0
  | fuel + 1, a, b =>
    let m := find_longest_match a b
    if m.2.2 = 0 then 0
    else
      matchingTotalAux fuel (a.take m.1) (b.take m.2.1) + m.2.2 +
        matchingTotalAux fuel (a.drop (m.1 + m.2.2)) (b.drop (m.2.1 + m.2.2))

/-- Total matched characters between two strings. -/
def matchingTotal (a b : List Char) : Nat := matchingTotalAux (a.length + 1) a b

/-- `SequenceMatcher(None, a, b).ratio()`: `2*M / (len(a)+len(b))`, and
`1.0` when both strings are empty. -/
def ratio (a b : String) : ℚ :=
  if a.data.length + b.data.length = 0 then 1
  else (2 * matchingTotal a.data b.data : ℚ) / ((a.data.length : ℚ) + (b.data.length : ℚ))

/-- `UnifiedDatasetLoader.search_food_fuzzy`: exact hit on the normalized
query first; otherwise scan the insertion-ordered food index, keeping (in
index order) every name with similarity ≥ `threshold`, and return the
first ten payloads.  The `checked` set of the source is threaded
faithfully. -/
def search_food_fuzzy {α : Type} (food_index : List (String × α)) (query : String)
    (threshold : ℚ) : List α :=
  let query_lower := pyLower (pyStrip query)
  match List.find? (fun p => p.1 == query_lower) food_index with
  | some p => [p.2]
  | none =>
    ((food_index.foldl (fun (acc : List α × List String) p =>
        if acc.2.contains p.1 then acc
        else if threshold ≤ ratio query_lower p.1 then (acc.1 ++ [p.2], acc.2 ++ [p.1])
        else acc) ([], [])).1).take 10

/-! ## Route validation (`src/routes/chatbot.py ask_question`) -/

/-- JSON body of a `/api/ask` request (absent fields are `none`). -/
structure AskRequest where
  question : Option String
  trimester : Option Nat

/-- Responses of the `/api/ask` route that matter to validation. -/
inductive RouteResponse where
  | badRequest (error : String)
  | ok (answer : String)
deriving DecidableEq

/-- The validation prefix of `ask_question` (src/routes/chatbot.py lines
46-58) followed by the chatbot call, which is abstracted as `answerFn`;
the boolean records whether the chatbot was consulted at all. -/
def ask_question (answerFn : String → Option Nat → String) (data : Option AskRequest) :
    RouteResponse × Bool :=
  match data with
  | none => (.badRequest "Question is required", false)
  | some d =>
    match d.question with
    | none => (.badRequest "Question is required", false)
    | some raw =>
      let question := pyStrip raw
      if question.isEmpty || question.data.length < 3 then
        (.badRequest "Question too short (min 3 chars)", false)
      else if 500 < question.data.length then
        (.badRequest "Question too long (max 500 chars)", false)
      else
        (.ok (answerFn question d.trimester), true)

/-! ## Derived predicates and concrete instances used by the statements -/

/-- A record carrying no tag at all for the optional filter dimensions. -/
def fullyUntagged (meal : Meal) : Prop :=
  (meal.get? "source_region" = none ∨ meal.get? "source_region" = some "") ∧
  (meal.get? "source_diet" = none ∨ meal.get? "source_diet" = some "") ∧
  (meal.get? "source_season" = none ∨ meal.get? "source_season" = some "") ∧
  (meal.get? "source_condition" = none ∨ meal.get? "source_condition" = some "") ∧
  find_meal_type_column meal = none ∧
  find_trimester_column meal = none

instance (meal : Meal) : Decidable (fullyUntagged meal) := by
  unfold fullyUntagged; infer_instance

/-- Is this event an external-model call? -/
def isSolar : Event → Bool
  | .solarCall _ => true
  | _ => false

/-- Is this event a successful rate-limiter check? -/
def isRateTrue : Event → Bool
  | .rateCheck true => true
  | _ => false

/-- Is this event a rate-limiter consultation (of either outcome)? -/
def isRateCheck : Event → Bool
  | .rateCheck _ => true
  | _ => false

/-- The gating discipline the specification asserts: every external-model
call is immediately preceded by a successful rate-limiter check. -/
def solarGated (tr : List Event) : Bool :=
  (List.range tr.length).all (fun i =>
    !isSolar (tr.getD i (.rateCheck false)) ||
      (decide (0 < i) && isRateTrue (tr.getD (i - 1) (.rateCheck false))))

/-- Sample record used by the filter witnesses. -/
def mealA : Meal := [("source_region", "North"), ("source_diet", "veg"), ("name", "Poha")]

/-- Sample record carrying no tags at all. -/
def mealB : Meal := [("name", "Khichdi"), ("calories", "250")]

/-- North-veg record carrying a meal-type column, used to exhibit the
stale-cache collision of C1. -/
def mealC : Meal :=
  [("source_region", "North"), ("source_diet", "veg"), ("meal_type", "breakfast")]

/-- North-veg record without meal-type/trimester columns, used to exhibit
the stale-cache collision of C2. -/
def mealD : Meal := [("source_region", "North"), ("source_diet", "veg"), ("name", "Poha")]

/-- An empty knowledge base (all datasets empty). -/
def kbEmpty : KnowledgeBase := ⟨[], [], [], [], []⟩

/-- A knowledge base whose `foods_to_eat` knows `egg`. -/
def kbEgg : KnowledgeBase :=
  ⟨[("egg", [("nutrients", "protein, choline")])], [], [], [], []⟩

/-- Environment for the benefits-path run: nothing known locally, a
responsive external model, a permissive rate limiter. -/
def envBenefits : ChatEnv := ⟨kbEmpty, [], fun _ => "ok", fun _ => true, id⟩

/-- Environment for the safety-path run: `egg` known locally. -/
def envSafety : ChatEnv := ⟨kbEgg, [], fun _ => "ok", fun _ => true, id⟩

/-- Environment with the external model unavailable (every `_ask_solar`
call returns `""`). -/
def envNoSolar : ChatEnv := ⟨kbEmpty, [], fun _ => "", fun _ => true, id⟩

/-- A concrete admissible `set` enumeration: the distinct elements in
reverse first-occurrence order. -/
def revSetOrder (l : List String) : List String := l.dedup.reverse

/-! ## Theorems -/

theorem normalize_season_of_falsey {s : Option String} (h : truthyS s = false) :
    normalize_season s = none := by
  cases s with
  | none => rfl
  | some v =>
    have h2 : v.isEmpty = true := by simpa [truthyS] using h
    simp [normalize_season, h2]

theorem normalize_condition_of_falsey {c : Option String} (h : truthyS c = false) :
    normalize_condition c = none := by
  cases c with
  | none => rfl
  | some v =>
    have h2 : v.isEmpty = true := by simpa [truthyS] using h
    simp [normalize_condition, h2]

theorem normalize_meal_type_of_falsey {m : Option String} (h : truthyS m = false) :
    normalize_meal_type m = none := by
  cases m with
  | none => rfl
  | some v =>
    have h2 : v.isEmpty = true := by simpa [truthyS] using h
    simp [normalize_meal_type, h2]

theorem trimesterOk_of_falsey {t : Option Nat} (h : truthyN t = false) (meal : Meal) :
    trimesterOk t meal = true := by
  simp [trimesterOk, h]

theorem search_season_irrel {meals r d t c m} {s : Option String} (h : truthyS s = false) :
    search_with_filters meals r d t s c m = search_with_filters meals r d t none c m := by
  unfold search_with_filters
  rw [normalize_season_of_falsey h]
  rfl

theorem search_condition_irrel {meals r d t s m} {c : Option String} (h : truthyS c = false) :
    search_with_filters meals r d t s c m = search_with_filters meals r d t s none m := by
  unfold search_with_filters
  rw [normalize_condition_of_falsey h]
  rfl

theorem search_meal_type_irrel {meals r d t s c} {m : Option String} (h : truthyS m = false) :
    search_with_filters meals r d t s c m = search_with_filters meals r d t s c none := by
  unfold search_with_filters
  rw [normalize_meal_type_of_falsey h]
  rfl

theorem search_trimester_irrel {meals r d s c m} {t : Option Nat} (h : truthyN t = false) :
    search_with_filters meals r d t s c m = search_with_filters meals r d none s c m := by
  unfold search_with_filters
  refine List.filter_congr (fun meal _ => ?_)
  unfold mealMatches
  rw [trimesterOk_of_falsey h, trimesterOk_of_falsey (t := none) rfl]

theorem relax_step4 (meals : List Meal) (region diet_type : Option String)
    (trimester : Option Nat) (season condition meal_type : Option String)
    (e0 : search_with_filters meals region diet_type trimester season condition meal_type = [])
    (e1 : search_with_filters meals region diet_type trimester none condition meal_type = [])
    (e2 : search_with_filters meals region diet_type trimester none none meal_type = [])
    (e3 : search_with_filters meals region diet_type none none none meal_type = []) :
    get_meals_by_preference meals region diet_type trimester season condition meal_type =
      firstNonemptyLevel (relaxationLevels meals region diet_type trimester season condition meal_type) := by
  unfold get_meals_by_preference firstNonemptyLevel relaxationLevels
  cases h4 : (search_with_filters meals region diet_type none none none none).isEmpty with
  | false =>
    cases hm : truthyS meal_type with
    | true => simp [e0, e1, e2, e3, h4, hm, List.find?]
    | false => simp [e0, e1, e2, e3, h4, hm, List.find?]
  | true => simp [e0, e1, e2, e3, List.isEmpty_iff.mp h4, List.find?]

theorem relax_step3 (meals : List Meal) (region diet_type : Option String)
    (trimester : Option Nat) (season condition meal_type : Option String)
    (e0 : search_with_filters meals region diet_type trimester season condition meal_type = [])
    (e1 : search_with_filters meals region diet_type trimester none condition meal_type = [])
    (e2 : search_with_filters meals region diet_type trimester none none meal_type = []) :
    get_meals_by_preference meals region diet_type trimester season condition meal_type =
      firstNonemptyLevel (relaxationLevels meals region diet_type trimester season condition meal_type) := by
  cases ht : truthyN trimester with
  | true =>
    cases h3 : (search_with_filters meals region diet_type none none none meal_type).isEmpty with
    | false =>
      unfold get_meals_by_preference firstNonemptyLevel relaxationLevels
      simp [e0, e1, e2, h3, ht, List.find?]
    | true => exact relax_step4 _ _ _ _ _ _ _ e0 e1 e2 (List.isEmpty_iff.mp h3)
  | false =>
    refine relax_step4 _ _ _ _ _ _ _ e0 e1 e2 ?_
    rw [← search_trimester_irrel ht]; exact e2

theorem relax_step2 (meals : List Meal) (region diet_type : Option String)
    (trimester : Option Nat) (season condition meal_type : Option String)
    (e0 : search_with_filters meals region diet_type trimester season condition meal_type = [])
    (e1 : search_with_filters meals region diet_type trimester none condition meal_type = []) :
    get_meals_by_preference meals region diet_type trimester season condition meal_type =
      firstNonemptyLevel (relaxationLevels meals region diet_type trimester season condition meal_type) := by
  cases hc : truthyS condition with
  | true =>
    cases h2 : (search_with_filters meals region diet_type trimester none none meal_type).isEmpty with
    | false =>
      unfold get_meals_by_preference firstNonemptyLevel relaxationLevels
      simp [e0, e1, h2, hc, List.find?]
    | true => exact relax_step3 _ _ _ _ _ _ _ e0 e1 (List.isEmpty_iff.mp h2)
  | false =>
    refine relax_step3 _ _ _ _ _ _ _ e0 e1 ?_
    rw [← search_condition_irrel hc]; exact e1

theorem relax_step1 (meals : List Meal) (region diet_type : Option String)
    (trimester : Option Nat) (season condition meal_type : Option String)
    (e0 : search_with_filters meals region diet_type trimester season condition meal_type = []) :
    get_meals_by_preference meals region diet_type trimester season condition meal_type =
      firstNonemptyLevel (relaxationLevels meals region diet_type trimester season condition meal_type) := by
  cases hs : truthyS season with
  | true =>
    cases h1 : (search_with_filters meals region diet_type trimester none condition meal_type).isEmpty with
    | false =>
      unfold get_meals_by_preference firstNonemptyLevel relaxationLevels
      simp [e0, h1, hs, List.find?]
    | true => exact relax_step2 _ _ _ _ _ _ _ e0 (List.isEmpty_iff.mp h1)
  | false =>
    refine relax_step2 _ _ _ _ _ _ _ e0 ?_
    rw [← search_season_irrel hs]; exact e0

theorem get_meals_by_preference_relaxation (meals : List Meal)
    (region diet_type : Option String) (trimester : Option Nat)
    (season condition meal_type : Option String) :
    get_meals_by_preference meals region diet_type trimester season condition meal_type =
      firstNonemptyLevel (relaxationLevels meals region diet_type trimester season condition meal_type) := by
  cases h0 : (search_with_filters meals region diet_type trimester season condition meal_type).isEmpty with
  | false =>
    unfold get_meals_by_preference firstNonemptyLevel relaxationLevels
    simp [h0, List.find?]
  | true => exact relax_step1 _ _ _ _ _ _ _ (List.isEmpty_iff.mp h0)

/-- C1: `get_meals_by_preference` runs the fully-constrained filter first
and, on emptiness, relaxes cumulatively in the order season, condition,
trimester, meal type — returning the first (most specific) non-empty
level; region and diet appear in every level, and when even the
region+diet-only level is empty the result is empty (`firstNonemptyLevel`
of an all-empty list).  The level list has exactly five entries, so the
whole process performs a bounded number of filter passes. -/
theorem get_meals_by_preference_progressive_relaxation (meals : List Meal)
    (region diet_type : Option String) (trimester : Option Nat)
    (season condition meal_type : Option String) :
    get_meals_by_preference meals region diet_type trimester season condition meal_type =
      firstNonemptyLevel (relaxationLevels meals region diet_type trimester season condition meal_type) ∧
    (relaxationLevels meals region diet_type trimester season condition meal_type).length = 5 :=
  ⟨get_meals_by_preference_relaxation meals region diet_type trimester season condition meal_type,
   rfl⟩

theorem mealMatches_pinned {nr nd : Option String} {trimester : Option Nat}
    {ns nc nm : Option String} {meal : Meal}
    (h : mealMatches nr nd trimester ns nc nm meal = true) :
    mealMatches nr nd none none none none meal = true := by
  simp only [mealMatches, Bool.and_eq_true] at h ⊢
  exact ⟨⟨⟨⟨⟨h.1.1.1.1.1, h.1.1.1.1.2⟩, rfl⟩, rfl⟩, rfl⟩, rfl⟩

/-- C2: every record returned by the preference filter under any optional
constraints is also returned by the filter pinned to the same region and
diet alone — optional constraints (and their relaxation) never admit a
record that the region+diet filter would exclude. -/
theorem search_with_filters_subset_pinned (meals : List Meal)
    (region diet_type : Option String) (trimester : Option Nat)
    (season condition meal_type : Option String) (meal : Meal)
    (h : meal ∈ search_with_filters meals region diet_type trimester season condition meal_type) :
    meal ∈ search_with_filters meals region diet_type none none none none := by
  unfold search_with_filters at h ⊢
  rw [List.mem_filter] at h ⊢
  exact ⟨h.1, mealMatches_pinned h.2⟩

/-- Witness for C2 at a concrete record and parameter tuple. -/
theorem search_with_filters_subset_pinned_witness :
    mealA ∈ search_with_filters [mealA] (some "north") (some "veg") (some 2)
      (some "summer") (some "diabetes") (some "lunch") ∧
    mealA ∈ search_with_filters [mealA] (some "north") (some "veg") none none none none :=
  ⟨by decide,
   search_with_filters_subset_pinned [mealA] (some "north") (some "veg") (some 2)
     (some "summer") (some "diabetes") (some "lunch") mealA (by decide)⟩

/-- C10: a record that does not carry the tag for a filtered dimension
(no or empty `source_*` value; no meal-type or trimester column) passes
that dimension's check for every requested value, and a record carrying no
tags at all is in every filter result. -/
theorem untagged_record_matches (meals : List Meal) (region diet_type : Option String)
    (trimester : Option Nat) (season condition meal_type : Option String) (meal : Meal) :
    (meal.get? "source_region" = none ∨ meal.get? "source_region" = some "" →
      regionOk (normalize_region region) meal = true) ∧
    (meal.get? "source_diet" = none ∨ meal.get? "source_diet" = some "" →
      dietOk (normalize_diet diet_type) meal = true) ∧
    (meal.get? "source_season" = none ∨ meal.get? "source_season" = some "" →
      seasonOk (normalize_season season) meal = true) ∧
    (meal.get? "source_condition" = none ∨ meal.get? "source_condition" = some "" →
      condOk (normalize_condition condition) meal = true) ∧
    (find_meal_type_column meal = none →
      mealTypeOk (normalize_meal_type meal_type) meal = true) ∧
    (find_trimester_column meal = none → trimesterOk trimester meal = true) ∧
    (meal ∈ meals → fullyUntagged meal →
      meal ∈ search_with_filters meals region diet_type trimester season condition meal_type) := by
  have hreg : meal.get? "source_region" = none ∨ meal.get? "source_region" = some "" →
      regionOk (normalize_region region) meal = true := by
    intro h
    unfold regionOk
    cases normalize_region region with
    | none => rfl
    | some req => rcases h with h | h <;> simp [h, show "".isEmpty = true from rfl]
  have hdiet : meal.get? "source_diet" = none ∨ meal.get? "source_diet" = some "" →
      dietOk (normalize_diet diet_type) meal = true := by
    intro h
    unfold dietOk
    cases normalize_diet diet_type with
    | none => rfl
    | some req => rcases h with h | h <;> simp [h, show "".isEmpty = true from rfl]
  have hseas : meal.get? "source_season" = none ∨ meal.get? "source_season" = some "" →
      seasonOk (normalize_season season) meal = true := by
    intro h
    unfold seasonOk
    cases normalize_season season with
    | none => rfl
    | some req => rcases h with h | h <;> simp [h, show "".isEmpty = true from rfl]
  have hcond : meal.get? "source_condition" = none ∨ meal.get? "source_condition" = some "" →
      condOk (normalize_condition condition) meal = true := by
    intro h
    unfold condOk
    cases normalize_condition condition with
    | none => rfl
    | some req => rcases h with h | h <;> simp [h, show "".isEmpty = true from rfl]
  have hmt : find_meal_type_column meal = none →
      mealTypeOk (normalize_meal_type meal_type) meal = true := by
    intro h
    unfold mealTypeOk
    cases normalize_meal_type meal_type with
    | none => rfl
    | some req => simp [h]
  have htr : find_trimester_column meal = none → trimesterOk trimester meal = true := by
    intro h
    unfold trimesterOk
    cases ht : truthyN trimester <;> simp [h]
  refine ⟨hreg, hdiet, hseas, hcond, hmt, htr, fun hmem hu => ?_⟩
  unfold search_with_filters
  rw [List.mem_filter]
  refine ⟨hmem, ?_⟩
  unfold mealMatches
  simp [hreg hu.1, hdiet hu.2.1, hseas hu.2.2.1, hcond hu.2.2.2.1,
    hmt hu.2.2.2.2.1, htr hu.2.2.2.2.2]

/-- Witness for C10: the fully untagged record is returned for a fully
constrained query. -/
theorem untagged_record_matches_witness :
    mealB ∈ search_with_filters [mealB] (some "south") (some "nonveg") (some 3)
      (some "winter") (some "gestational diabetes") (some "dinner") :=
  (untagged_record_matches [mealB] (some "south") (some "nonveg") (some 3)
    (some "winter") (some "gestational diabetes") (some "dinner") mealB).2.2.2.2.2.2
    (by decide) (by decide)

/-- C4: TTL semantics of the response cache as specified (the read path of
`answer_question_structured` plus the intended insertion, which in the
source is unreachable because the `result` dict literal is a syntax
error): an entry freshly inserted at `t0` is a hit, with its payload
unchanged, exactly for reads with `now - t0 < ttl`; and no lookup, over
any cache contents, ever returns a payload whose entry's age is ≥ `ttl`
(stale entries are only ignored, never purged — `cacheLookup` does not
modify the cache). -/
theorem cache_ttl_semantics {π : Type} (cache : List (String × π × ℚ))
    (key : String) (payload : π) (t0 now ttl : ℚ) :
    (cacheLookup (cacheSet cache key payload t0) key now ttl =
      if now - t0 < ttl then some payload else none) ∧
    (∀ v : π, cacheLookup cache key now ttl = some v →
      ∃ e ∈ cache, e.1 = key ∧ e.2.1 = v ∧ now - e.2.2 < ttl) := by
  constructor
  · unfold cacheLookup cacheSet
    simp [List.find?]
  · intro v hv
    unfold cacheLookup at hv
    cases hfind : List.find? (fun p => p.1 == key) cache with
    | none =>
      simp only [hfind] at hv
      exact Option.noConfusion hv
    | some e =>
      simp only [hfind] at hv
      have hmem := List.mem_of_find?_eq_some hfind
      have hkey : e.1 = key := by simpa using List.find?_some hfind
      by_cases hage : now - e.2.2 < ttl
      · rw [if_pos hage] at hv
        exact ⟨e, hmem, hkey, by simpa using hv, hage⟩
      · rw [if_neg hage] at hv
        exact absurd hv (by simp)

/-- Witness for C4: a fresh entry is returned unchanged within the TTL. -/
theorem cache_ttl_semantics_witness :
    cacheLookup (cacheSet ([] : List (String × Nat × ℚ)) "can i eat eggs_2" 42 0)
      "can i eat eggs_2" 10 3600 = some 42 := by
  rw [(cache_ttl_semantics ([] : List (String × Nat × ℚ)) "can i eat eggs_2" 42 0 10 3600).1]
  norm_num

/-- C8: a request whose trimmed question has fewer than 3 or more than 500
characters is rejected with a validation error, and the chatbot (cache,
index, filter, fallback) is never consulted (the returned flag is
`false`); in particular a two-character question is rejected without any
lookup. -/
theorem ask_question_rejects_bad_length
    (answerFn : String → Option Nat → String) (raw : String) (tri : Option Nat) :
    ((pyStrip raw).data.length < 3 →
      ask_question answerFn (some ⟨some raw, tri⟩) =
        (.badRequest "Question too short (min 3 chars)", false)) ∧
    (500 < (pyStrip raw).data.length →
      ask_question answerFn (some ⟨some raw, tri⟩) =
        (.badRequest "Question too long (max 500 chars)", false)) := by
  constructor
  · intro h
    unfold ask_question
    have hcond : ((pyStrip raw).isEmpty || decide ((pyStrip raw).data.length < 3)) = true := by
      simp only [Bool.or_eq_true, decide_eq_true_eq]
      exact Or.inr h
    simp only [hcond, if_true]
  · intro h
    have h2 : (pyStrip raw).isEmpty = false := by
      cases hb : (pyStrip raw).isEmpty with
      | false => rfl
      | true =>
        rw [(String.isEmpty_iff _).mp hb] at h
        exact absurd h (by decide)
    unfold ask_question
    have hcond : ((pyStrip raw).isEmpty || decide ((pyStrip raw).data.length < 3)) = false := by
      rw [h2, decide_eq_false (by omega), Bool.or_false]
    simp only [hcond, Bool.false_eq_true, if_false, if_pos h]

/-- Witness for C8: the two-character question `"Hi"` is rejected without
any lookup. -/
theorem ask_question_rejects_witness :
    ask_question (fun _ _ => "answer") (some ⟨some "Hi", none⟩) =
      (.badRequest "Question too short (min 3 chars)", false) :=
  (ask_question_rejects_bad_length (fun _ _ => "answer") "Hi" none).1 (by decide)

theorem windowCount_le_length (t : ℚ) (l : List ℚ) : windowCount t l ≤ l.length :=
  List.length_filter_le _ _

theorem windowCount_append (t : ℚ) (l1 l2 : List ℚ) :
    windowCount t (l1 ++ l2) = windowCount t l1 + windowCount t l2 := by
  unfold windowCount
  rw [List.filter_append, List.length_append]

theorem rla_denied {q : Nat} {r : List ℚ} {x : ℚ}
    (hq : q ≤ (r.dropWhile (fun s => decide (x - s > 60))).length) :
    rate_limit_allows q r x = (false, r.dropWhile (fun s => decide (x - s > 60))) := by
  unfold rate_limit_allows
  simp only [hq, if_true]

theorem rla_allowed {q : Nat} {r : List ℚ} {x : ℚ}
    (hq : ¬ q ≤ (r.dropWhile (fun s => decide (x - s > 60))).length) :
    rate_limit_allows q r x =
      (true, r.dropWhile (fun s => decide (x - s > 60)) ++ [x]) := by
  unfold rate_limit_allows
  simp only [hq, if_false]

theorem dropWhile_length_le {α : Type} (p : α → Bool) (r : List α) :
    (r.dropWhile p).length ≤ r.length := by
  conv_rhs => rw [← List.takeWhile_append_dropWhile (p := p) (l := r)]
  rw [List.length_append]
  omega

theorem rate_limit_allows_len (q : Nat) (r : List ℚ) (t : ℚ) (h : r.length ≤ q) :
    ((rate_limit_allows q r t).2).length ≤ q := by
  have hd := dropWhile_length_le (fun s => decide (t - s > 60)) r
  by_cases hq : q ≤ (r.dropWhile (fun s => decide (t - s > 60))).length
  · rw [rla_denied hq]
    show (r.dropWhile (fun s => decide (t - s > 60))).length ≤ q
    omega
  · rw [rla_allowed hq]
    show (r.dropWhile (fun s => decide (t - s > 60)) ++ [t]).length ≤ q
    rw [List.length_append, List.length_singleton]
    omega

theorem rlState_len (q : Nat) (ts : List ℚ) : ∀ (r : List ℚ), r.length ≤ q →
    (rlState q r ts).length ≤ q := by
  induction ts with
  | nil => intro r h; exact h
  | cons x rest ih =>
    intro r h
    exact ih _ (rate_limit_allows_len q r x h)

theorem windowCount_dropWhile (t x : ℚ) (r : List ℚ) (hx : x ≤ t) :
    windowCount t (r.dropWhile (fun s => decide (x - s > 60))) = windowCount t r := by
  conv_rhs => rw [← List.takeWhile_append_dropWhile (p := fun s => decide (x - s > 60)) (l := r)]
  rw [windowCount_append]
  have h0 : windowCount t (r.takeWhile (fun s => decide (x - s > 60))) = 0 := by
    unfold windowCount
    rw [List.length_eq_zero, List.filter_eq_nil_iff]
    intro a ha
    have hp := List.mem_takeWhile_imp ha
    simp only [decide_eq_true_eq] at hp ⊢
    intro hc
    have : t - a > 60 := by linarith
    linarith
  omega

theorem rlSuccs_append (q : Nat) (l1 l2 : List ℚ) : ∀ r : List ℚ,
    rlSuccs q r (l1 ++ l2) = rlSuccs q r l1 ++ rlSuccs q (rlState q r l1) l2 := by
  induction l1 with
  | nil => intro r; rfl
  | cons x rest ih =>
    intro r
    simp only [List.cons_append, rlSuccs, rlState, List.append_eq]
    rw [ih, List.append_assoc]

theorem rlState_window (q : Nat) (t : ℚ) (ts : List ℚ) (hts : ∀ x ∈ ts, x ≤ t) :
    ∀ r : List ℚ, windowCount t (rlState q r ts) =
      windowCount t r + windowCount t (rlSuccs q r ts) := by
  induction ts with
  | nil => intro r; simp [rlState, rlSuccs, windowCount]
  | cons x rest ih =>
    intro r
    have hx : x ≤ t := hts x (List.mem_cons_self _ _)
    have hrest : ∀ y ∈ rest, y ≤ t := fun y hy => hts y (List.mem_cons_of_mem _ hy)
    simp only [rlState, rlSuccs]
    by_cases hq : q ≤ (r.dropWhile (fun s => decide (x - s > 60))).length
    · rw [rla_denied hq]
      simp only [Bool.false_eq_true, if_false, List.nil_append]
      rw [ih hrest, windowCount_dropWhile t x r hx]
    · rw [rla_allowed hq]
      simp only [if_true, List.singleton_append]
      rw [ih hrest, windowCount_append, windowCount_dropWhile t x r hx]
      have : windowCount t (x :: rlSuccs q (List.dropWhile (fun s => decide (x - s > 60)) r ++ [x]) rest) =
          windowCount t [x] + windowCount t (rlSuccs q (List.dropWhile (fun s => decide (x - s > 60)) r ++ [x]) rest) := by
        rw [show (x :: rlSuccs q (List.dropWhile (fun s => decide (x - s > 60)) r ++ [x]) rest) =
          [x] ++ rlSuccs q (List.dropWhile (fun s => decide (x - s > 60)) r ++ [x]) rest from rfl]
        exact windowCount_append t _ _
      rw [this]
      omega

theorem rl_window_bound (q : Nat) (times l1 l2 : List ℚ) (t : ℚ)
    (heq : times = l1 ++ t :: l2) (hsort : times.Pairwise (· ≤ ·)) :
    windowCount t (rlSuccs q [] (l1 ++ [t])) ≤ q := by
  subst heq
  have hl1 : ∀ x ∈ l1, x ≤ t := by
    rw [List.pairwise_append] at hsort
    exact fun x hx => hsort.2.2 x hx t (List.mem_cons_self _ _)
  rw [rlSuccs_append q l1 [t], windowCount_append]
  have hbase : windowCount t (rlSuccs q [] l1) = windowCount t (rlState q [] l1) := by
    have h := rlState_window q t l1 hl1 []
    have h0 : windowCount t ([] : List ℚ) = 0 := rfl
    omega
  have hlen : (rlState q [] l1).length ≤ q := rlState_len q l1 [] (by simp)
  by_cases hq : q ≤ ((rlState q [] l1).dropWhile (fun s => decide (t - s > 60))).length
  · have hnil : rlSuccs q (rlState q [] l1) [t] = [] := by
      simp only [rlSuccs, rla_denied hq]
      rfl
    rw [hnil]
    have hW : windowCount t (rlState q [] l1) ≤ (rlState q [] l1).length :=
      windowCount_le_length t _
    have h0 : windowCount t ([] : List ℚ) = 0 := rfl
    omega
  · have hone : rlSuccs q (rlState q [] l1) [t] = [t] := by
      simp only [rlSuccs, rla_allowed hq]
      rfl
    rw [hone]
    have hWdrop : windowCount t
        ((rlState q [] l1).dropWhile (fun s => decide (t - s > 60))) =
        windowCount t (rlState q [] l1) :=
      windowCount_dropWhile t t _ le_rfl
    have hW2 : windowCount t
        ((rlState q [] l1).dropWhile (fun s => decide (t - s > 60))) ≤
        ((rlState q [] l1).dropWhile (fun s => decide (t - s > 60))).length :=
      windowCount_le_length t _
    have hW3 : windowCount t [t] ≤ 1 := windowCount_le_length t [t]
    omega

theorem rla_same_time (q k : Nat) (t : ℚ) :
    rate_limit_allows q (List.replicate k t) t =
      if q ≤ k then (false, List.replicate k t) else (true, List.replicate (k + 1) t) := by
  have hdrop : (List.replicate k t).dropWhile (fun s => decide (t - s > 60)) =
      List.replicate k t := by
    cases k with
    | zero => rfl
    | succ m =>
      rw [List.replicate_succ, List.dropWhile_cons]
      have : (decide ((t:ℚ) - t > 60)) = false := by
        apply decide_eq_false
        simp
      rw [this]
      simp
  by_cases hq : q ≤ k
  · rw [rla_denied (by rw [hdrop, List.length_replicate]; exact hq), hdrop, if_pos hq]
  · rw [rla_allowed (by rw [hdrop, List.length_replicate]; exact hq), hdrop, if_neg hq,
      ← List.replicate_succ']

theorem rl_rapid (q : Nat) (t : ℚ) : ∀ m k,
    rlProcess q (List.replicate k t) (List.replicate m t) =
      List.replicate (min m (q - k)) true ++ List.replicate (m - (q - k)) false := by
  intro m
  induction m with
  | zero => intro k; simp [rlProcess]
  | succ m ih =>
    intro k
    rw [List.replicate_succ]
    simp only [rlProcess]
    rw [rla_same_time]
    by_cases hq : q ≤ k
    · simp only [hq, if_true]
      rw [ih k]
      have h1 : q - k = 0 := by omega
      have h2 : min (m + 1) 0 = 0 := by omega
      have h3 : min m 0 = 0 := by omega
      simp only [h1, h2, h3, Nat.sub_zero, List.replicate_zero, List.nil_append,
        List.replicate_succ]
    · simp only [hq, if_false]
      rw [ih (k + 1)]
      have hmin : min (m + 1) (q - k) = min m (q - (k + 1)) + 1 := by omega
      have hsub : (m + 1) - (q - k) = m - (q - (k + 1)) := by omega
      rw [hmin, hsub, List.replicate_succ, List.cons_append]

theorem rl_recovery (q : Nat) (r : List ℚ) (u : ℚ) (hq : 0 < q)
    (h : ∀ s ∈ r, u - s > 60) : (rate_limit_allows q r u).1 = true := by
  have hdrop : r.dropWhile (fun s => decide (u - s > 60)) = [] :=
    List.dropWhile_eq_nil_iff.mpr (fun x hx => decide_eq_true (h x hx))
  rw [rla_allowed (by rw [hdrop]; simp only [List.length_nil]; omega)]

/-- C3: `_rate_limit_allows` first drops the timestamps older than 60
seconds from the front of the deque and returns `true` — recording `now` —
iff fewer than the quota remain; consequently, along any sequence of calls
at non-decreasing times starting from an empty deque, at most `q` calls
are permitted within the trailing 60-second window of any call; `q`
rapid-fire calls all succeed and the `(q+1)`-th is denied; and once the
whole window has elapsed a call is permitted again. -/
theorem rate_limiter_spec (q : Nat) :
    (∀ (recent : List ℚ) (now : ℚ),
      ((rate_limit_allows q recent now).1 = true ↔
        (recent.dropWhile (fun s => decide (now - s > 60))).length < q) ∧
      ((rate_limit_allows q recent now).1 = true →
        (rate_limit_allows q recent now).2 =
          recent.dropWhile (fun s => decide (now - s > 60)) ++ [now])) ∧
    (∀ (times l1 l2 : List ℚ) (t : ℚ), times = l1 ++ t :: l2 →
      times.Pairwise (· ≤ ·) → windowCount t (rlSuccs q [] (l1 ++ [t])) ≤ q) ∧
    (∀ t : ℚ, rlProcess q [] (List.replicate q t) = List.replicate q true ∧
      rlProcess q [] (List.replicate (q + 1) t) = List.replicate q true ++ [false]) ∧
    (∀ (recent : List ℚ) (u : ℚ), 0 < q → (∀ s ∈ recent, u - s > 60) →
      (rate_limit_allows q recent u).1 = true) := by
  refine ⟨fun recent now => ⟨?_, ?_⟩, rl_window_bound q, fun t => ⟨?_, ?_⟩, rl_recovery q⟩
  · by_cases hq : q ≤ (recent.dropWhile (fun s => decide (now - s > 60))).length
    · rw [rla_denied hq]
      constructor
      · intro hc; exact absurd hc (by simp)
      · intro hc; omega
    · rw [rla_allowed hq]
      constructor
      · intro _; omega
      · intro _; rfl
  · intro hallow
    by_cases hq : q ≤ (recent.dropWhile (fun s => decide (now - s > 60))).length
    · rw [rla_denied hq] at hallow
      exact absurd hallow (by simp)
    · rw [rla_allowed hq]
  · have h := rl_rapid q t q 0
    rw [Nat.sub_zero, Nat.min_self, Nat.sub_self, List.replicate_zero] at h
    simpa using h
  · have h := rl_rapid q t (q + 1) 0
    rw [Nat.sub_zero] at h
    have hmin : min (q + 1) q = q := by omega
    have hsub : q + 1 - q = 1 := by omega
    rw [hmin, hsub] at h
    exact h

/-- Witness for C3 at quota 2: two rapid-fire calls succeed, the window
bound holds for the call at time 20 of the run `[0, 10, 20]`, and a call
100 seconds after the only recorded call is permitted. -/
theorem rate_limiter_spec_witness :
    rlProcess 2 [] (List.replicate 2 (5 : ℚ)) = List.replicate 2 true ∧
    windowCount 20 (rlSuccs 2 [] ([0, 10] ++ [20])) ≤ 2 ∧
    (rate_limit_allows 2 [(0 : ℚ)] 100).1 = true :=
  ⟨((rate_limiter_spec 2).2.2.1 5).1,
   (rate_limiter_spec 2).2.1 [0, 10, 20] [0, 10] [] 20 rfl (by decide),
   (rate_limiter_spec 2).2.2.2 [0] 100 (by decide)
     (fun s hs => by
       have hs0 : s = 0 := by simpa using hs
       rw [hs0]
       norm_num)⟩

set_option maxRecDepth 4000 in
theorem ratio_apples_aple : ratio "apples" "aple" = 4/5 := by
  unfold ratio
  rw [show matchingTotal "apples".data "aple".data = 4 from by decide,
      show "apples".data.length = 6 from by decide,
      show "aple".data.length = 4 from by decide]
  norm_num

set_option maxRecDepth 4000 in
theorem ratio_apples_apple : ratio "apples" "apple" = 10/11 := by
  unfold ratio
  rw [show matchingTotal "apples".data "apple".data = 5 from by decide,
      show "apples".data.length = 6 from by decide,
      show "apple".data.length = 5 from by decide]
  norm_num


theorem fuzzy_fold_eq_filter {α : Type} (ql : String) (thr : ℚ) :
    ∀ (idx : List (String × α)) (acc : List α × List String),
      (∀ p ∈ idx, acc.2.contains p.1 = false) →
      (idx.map Prod.fst).Nodup →
      (idx.foldl (fun (acc : List α × List String) p =>
          if acc.2.contains p.1 then acc
          else if thr ≤ ratio ql p.1 then (acc.1 ++ [p.2], acc.2 ++ [p.1])
          else acc) acc).1 =
        acc.1 ++ (idx.filter (fun p => decide (thr ≤ ratio ql p.1))).map (fun p => p.2) := by
  intro idx
  induction idx with
  | nil => intro acc _ _; simp
  | cons p rest ih =>
    intro acc hfresh hnodup
    have hp : acc.2.contains p.1 = false := hfresh p (List.mem_cons_self _ _)
    have hnd2 : (rest.map Prod.fst).Nodup := (List.nodup_cons.mp hnodup).2
    have hhead : p.1 ∉ rest.map Prod.fst := (List.nodup_cons.mp hnodup).1
    simp only [List.foldl_cons, List.filter_cons, hp, Bool.false_eq_true, if_false]
    by_cases hr : thr ≤ ratio ql p.1
    · rw [if_pos hr, if_pos (decide_eq_true hr)]
      rw [ih (acc.1 ++ [p.2], acc.2 ++ [p.1]) ?_ hnd2]
      · simp
      · intro qe hq
        have hq1m : qe.1 ∉ acc.2 := by simpa using hfresh qe (List.mem_cons_of_mem _ hq)
        have hq2 : qe.1 ≠ p.1 := by
          intro hc
          exact hhead (hc ▸ List.mem_map_of_mem Prod.fst hq)
        show ((acc.2 ++ [p.1]).contains qe.1) = false
        simp [hq1m, hq2]
    · rw [if_neg hr, if_neg (by simpa using hr)]
      exact ih acc (fun q hq => hfresh q (List.mem_cons_of_mem _ hq)) hnd2

/-- C5 (amended): `search_food_fuzzy` first returns the exact hit on the
normalized query; otherwise it returns the payloads of the indexed keys
whose similarity ratio is ≥ the threshold, in index insertion order (not
sorted by similarity), truncated to the first ten; consequently at most
ten records are returned and every fuzzy-returned record's key has
similarity ≥ the threshold. -/
theorem search_food_fuzzy_spec {α : Type} (idx : List (String × α)) (q : String)
    (thr : ℚ) (hnodup : (idx.map Prod.fst).Nodup) :
    search_food_fuzzy idx q thr =
      (match List.find? (fun p => p.1 == pyLower (pyStrip q)) idx with
       | some p => [p.2]
       | none =>
         ((idx.filter (fun p => decide (thr ≤ ratio (pyLower (pyStrip q)) p.1))).map
           (fun p => p.2)).take 10) ∧
    (search_food_fuzzy idx q thr).length ≤ 10 ∧
    (List.find? (fun p => p.1 == pyLower (pyStrip q)) idx = none →
      ∀ a ∈ search_food_fuzzy idx q thr,
        ∃ p ∈ idx, p.2 = a ∧ thr ≤ ratio (pyLower (pyStrip q)) p.1) := by
  have hmain : search_food_fuzzy idx q thr =
      (match List.find? (fun p => p.1 == pyLower (pyStrip q)) idx with
       | some p => [p.2]
       | none =>
         ((idx.filter (fun p => decide (thr ≤ ratio (pyLower (pyStrip q)) p.1))).map
           (fun p => p.2)).take 10) := by
    unfold search_food_fuzzy
    cases hfind : List.find? (fun p => p.1 == pyLower (pyStrip q)) idx with
    | some p => simp only [hfind]
    | none =>
      simp only [hfind]
      rw [fuzzy_fold_eq_filter (pyLower (pyStrip q)) thr idx ([], [])
        (fun p _ => rfl) hnodup]
      simp
  refine ⟨hmain, ?_, ?_⟩
  · rw [hmain]
    cases hfind : List.find? (fun p => p.1 == pyLower (pyStrip q)) idx with
    | some p => simp
    | none => simp [List.length_take]
  · intro hfind a ha
    rw [hmain] at ha
    simp only [hfind] at ha
    have ha2 := List.take_subset 10 _ ha
    rw [List.mem_map] at ha2
    obtain ⟨p, hp, hpa⟩ := ha2
    rw [List.mem_filter] at hp
    exact ⟨p, hp.1, hpa, of_decide_eq_true hp.2⟩

/-- Witness for C5 at a one-entry index: the result has at most ten
records. -/
theorem search_food_fuzzy_spec_witness :
    (search_food_fuzzy [("dal", 7)] "dal" (7/10 : ℚ)).length ≤ 10 :=
  (search_food_fuzzy_spec [("dal", 7)] "dal" (7/10 : ℚ) (by decide)).2.1

/-- C5 counterexample: for the two-key index `aple, apple` (in that
insertion order) and query `apples`, the fuzzy search returns the records
in index order `[0, 1]` although the first returned record's key has
strictly smaller similarity to the query than the second's — the result is
not ordered by descending similarity. -/
theorem search_food_fuzzy_order_counterexample :
    search_food_fuzzy [("aple", 0), ("apple", 1)] "apples" (7/10 : ℚ) = [0, 1] ∧
    ratio "apples" "aple" < ratio "apples" "apple" := by
  constructor
  · have hc1 : (7/10 : ℚ) ≤ ratio "apples" "aple" := by rw [ratio_apples_aple]; norm_num
    have hc2 : (7/10 : ℚ) ≤ ratio "apples" "apple" := by rw [ratio_apples_apple]; norm_num
    unfold search_food_fuzzy
    rw [show pyLower (pyStrip "apples") = "apples" from by decide]
    simp only []
    rw [show List.find? (fun p : String × Nat => p.1 == "apples") [("aple", 0), ("apple", 1)] = none
        from by decide]
    simp [List.foldl, hc1, hc2]
  · rw [ratio_apples_aple, ratio_apples_apple]
    norm_num

theorem tok_fold_props (ws : List String) (ks3 : List String) :
    ∀ acc : List String, ∀ w ∈ ws.foldl (fun acc word =>
        if 3 ≤ word.data.length && !skip_words.contains word && !(ks3 ++ acc).contains word
        then acc ++ [word] else acc) acc,
      w ∈ acc ∨ (3 ≤ w.data.length ∧ skip_words.contains w = false ∧ w ∈ ws) := by
  induction ws with
  | nil => intro acc w hw; exact Or.inl hw
  | cons x rest ih =>
    intro acc w hw
    rw [List.foldl_cons] at hw
    rcases ih _ w hw with hacc | hprops
    · by_cases hc : (3 ≤ x.data.length && !skip_words.contains x && !(ks3 ++ acc).contains x) = true
      · rw [if_pos hc] at hacc
        rcases List.mem_append.mp hacc with h | h
        · exact Or.inl h
        · have hx : w = x := by simpa using h
          subst hx
          simp only [Bool.and_eq_true, Bool.not_eq_true'] at hc
          exact Or.inr ⟨by exact_mod_cast of_decide_eq_true (by simpa using hc.1.1),
            hc.1.2, List.mem_cons_self _ _⟩
      · rw [if_neg hc] at hacc
        exact Or.inl hacc
    · exact Or.inr ⟨hprops.1, hprops.2.1, List.mem_cons_of_mem _ hprops.2.2⟩

/-- C9 (amended): the extracted keyword list has no duplicates and at most
five entries; every entry is one of the keywords discovered in the
knowledge-base / common-food / tokenizer scan; and every discovered
keyword that does not come from the knowledge-base keys or the
`common_foods` list comes from the generic tokenizer pass: it has length
≥ 3, is not a stop word, and is a token of the cleaned question.  The
output order, however, is whatever the `set` enumeration yields — not the
discovery order. -/
theorem extract_keywords_spec (setOrder : List String → List String)
    (kb : KnowledgeBase) (question : String)
    (hset : ∀ l, (setOrder l).Perm l.dedup) :
    (extract_keywords setOrder kb question).Nodup ∧
    (extract_keywords setOrder kb question).length ≤ 5 ∧
    (∀ w ∈ extract_keywords setOrder kb question, w ∈ rawKeywords kb question) ∧
    (∀ w ∈ rawKeywords kb question,
      w ∉ kb.foods_to_eat.map Prod.fst → w ∉ kb.foods_to_avoid.map Prod.fst →
      w ∉ common_foods →
      3 ≤ w.data.length ∧ skip_words.contains w = false ∧
        w ∈ pySplitWs (pyRemoveChar ',' (pyRemoveChar '!' (pyRemoveChar '?' (pyLower question))))) := by
  have hnodup : (setOrder (rawKeywords kb question)).Nodup :=
    ((hset (rawKeywords kb question)).nodup_iff).mpr (List.nodup_dedup _)
  refine ⟨?_, ?_, ?_, ?_⟩
  · exact hnodup.sublist (List.take_sublist _ _)
  · exact List.length_take_le _ _
  · intro w hw
    have h1 : w ∈ setOrder (rawKeywords kb question) :=
      List.take_subset _ _ hw
    have h2 : w ∈ (rawKeywords kb question).dedup :=
      (hset (rawKeywords kb question)).mem_iff.mp h1
    exact List.mem_dedup.mp h2
  · intro w hw heat havoid hcommon
    unfold rawKeywords at hw
    simp only at hw
    rcases List.mem_append.mp hw with hks3 | hfold
    · exfalso
      rcases List.mem_append.mp hks3 with hks2 | hcom
      · rcases List.mem_append.mp hks2 with hks1 | hav
        · exact heat (List.mem_of_mem_filter hks1)
        · exact havoid (List.mem_of_mem_filter hav)
      · exact hcommon (List.mem_of_mem_filter hcom)
    · rcases tok_fold_props _ _ [] w hfold with hnil | hprops
      · exact absurd hnil (List.not_mem_nil w)
      · exact hprops

/-- Witness for C9 at a concrete admissible set enumeration. -/
theorem extract_keywords_spec_witness :
    (extract_keywords revSetOrder kbEmpty "why eat egg").length ≤ 5 :=
  (extract_keywords_spec revSetOrder kbEmpty "why eat egg"
    (fun _ => List.reverse_perm _)).2.1

/-- C9 counterexample: for the question `benefits of quinoa` the keywords
are discovered in the order `quinoa` (common-food scan) then `benefits`
(tokenizer pass), but `list(set(keywords))` enumerates the set in an
unspecified order — under the admissible enumeration `revSetOrder` the
code returns `[benefits, quinoa]`, which does not follow discovery
order. -/
theorem extract_keywords_order_counterexample :
    (revSetOrder (rawKeywords kbEmpty "benefits of quinoa")).Perm
      ((rawKeywords kbEmpty "benefits of quinoa").dedup) ∧
    rawKeywords kbEmpty "benefits of quinoa" = ["quinoa", "benefits"] ∧
    extract_keywords revSetOrder kbEmpty "benefits of quinoa" = ["benefits", "quinoa"] ∧
    extract_keywords revSetOrder kbEmpty "benefits of quinoa" ≠
      rawKeywords kbEmpty "benefits of quinoa" :=
  ⟨List.reverse_perm _, by decide, by decide, by decide⟩

theorem benefits_fold_no_ratecheck (env : ChatEnv) (keywords : List String) :
    ∀ (acc : List String × List Event × Bool),
      (∀ e ∈ acc.2.1, isRateCheck e = false) →
      ∀ e ∈ (keywords.foldl (fun (acc : List String × List Event × Bool) keyword =>
        match dictGet env.kb.foods_to_eat keyword with
        | some info =>
          (acc.1 ++ ["\n**" ++ pyTitle keyword ++ ":**"] ++
            (if info.getS "nutrients" "" ≠ "" then ["  🔬 Nutrients: " ++ info.getS "nutrients" ""] else []) ++
            (if info.getS "benefit" "" ≠ "" then ["  💪 Benefits: " ++ info.getS "benefit" ""] else []) ++
            (if info.getS "food_group" "" ≠ "" then ["  📁 Food Group: " ++ info.getS "food_group" ""] else []) ++
            (if info.getS "trimester" "" ≠ "" then ["  🤰 Best for: Trimester " ++ info.getS "trimester" ""] else []) ++
            (if info.getS "remarks" "" ≠ "" then ["  💡 Note: " ++ info.getS "remarks" ""] else []) ++
            [""],
           acc.2.1, true)
        | none =>
          let prompt := "What are the nutritional benefits and risks of eating " ++ keyword ++
            " during pregnancy?"
          let solar_ans := env.solar prompt
          if !solar_ans.isEmpty then
            (acc.1 ++ ["\n**" ++ pyTitle keyword ++ " (AI-Powered, Solar):**", solar_ans, ""],
             acc.2.1 ++ [.solarCall prompt], true)
          else
            (acc.1, acc.2.1 ++ [.solarCall prompt], acc.2.2)) acc).2.1,
        isRateCheck e = false := by
  induction keywords with
  | nil => intro acc hacc e he; exact hacc e he
  | cons k rest ih =>
    intro acc hacc e he
    rw [List.foldl_cons] at he
    refine ih _ ?_ e he
    intro e2 he2
    cases hk : dictGet env.kb.foods_to_eat k with
    | some info =>
      rw [hk] at he2
      exact hacc e2 he2
    | none =>
      rw [hk] at he2
      simp only [] at he2
      by_cases hs : (!(env.solar ("What are the nutritional benefits and risks of eating " ++ k ++
          " during pregnancy?")).isEmpty) = true
      · rw [if_pos hs] at he2
        rcases List.mem_append.mp he2 with h | h
        · exact hacc e2 h
        · have : e2 = Event.solarCall ("What are the nutritional benefits and risks of eating " ++
              k ++ " during pregnancy?") := by simpa using h
          rw [this]; rfl
      · rw [if_neg hs] at he2
        rcases List.mem_append.mp he2 with h | h
        · exact hacc e2 h
        · have : e2 = Event.solarCall ("What are the nutritional benefits and risks of eating " ++
              k ++ " during pregnancy?") := by simpa using h
          rw [this]; rfl

/-- C6 (amended): the empty-answer fallback of `answer_question` gates its
external call with the rate limiter (the composer appends no events, a
failed check, or a successful check immediately followed by the external
call); but `_handle_benefits_question` performs its per-keyword external
calls without ever consulting the rate limiter, and
`_handle_safety_question` consults the rate limiter on every invocation —
including purely local lookups. -/
theorem rate_limiter_gating (env : ChatEnv) (question intent : String)
    (trimester : Option Nat) (answer_parts : PyStrOrList) (evs : List Event)
    (n : Nat) (keywords : List String) :
    ((compose_answer env question intent trimester answer_parts evs n).2.1 = evs ∨
     (compose_answer env question intent trimester answer_parts evs n).2.1 =
       evs ++ [Event.rateCheck false] ∨
     (compose_answer env question intent trimester answer_parts evs n).2.1 =
       evs ++ [Event.rateCheck true, Event.solarCall question]) ∧
    (∀ e ∈ (handle_benefits_question env keywords).2, isRateCheck e = false) ∧
    ((handle_safety_question env keywords n).2.1.head? =
      some (Event.rateCheck (env.rateOk n))) := by
  refine ⟨?_, ?_, ?_⟩
  · unfold compose_answer
    by_cases h1 : answer_parts.falsy = true
    · by_cases h2 : env.rateOk n = true
      · by_cases h3 : (!(env.solar question).isEmpty) = true
        · simp [h1, h2, h3]
        · simp [h1, h2, h3]
      · simp [h1, h2]
    · by_cases h4 : (pyStrip (if truthyN trimester = true
          then answer_parts.joinNl ++ "\n\n💡 Tip: Always consult your doctor before making major dietary changes."
          else answer_parts.joinNl)).isEmpty = true
      · by_cases h2 : env.rateOk n = true
        · by_cases h3 : (!(env.solar question).isEmpty) = true
          · simp [h1, h2, h3, h4]
          · simp [h1, h2, h3, h4]
        · simp [h1, h2, h4]
      · simp [h1, h4]
  · intro e he
    unfold handle_benefits_question at he
    simp only [] at he
    split at he
    · exact benefits_fold_no_ratecheck env keywords _
        (fun e2 h => absurd h (List.not_mem_nil e2)) e he
    · exact benefits_fold_no_ratecheck env keywords _
        (fun e2 h => absurd h (List.not_mem_nil e2)) e he
  · unfold handle_safety_question
    cases hr : env.rateOk n with
    | false => simp
    | true =>
      simp only [hr, Bool.not_true, Bool.false_eq_true, if_false]
      split <;> rfl

/-- Witness for C6 (amended), safety path: the rate limiter is consulted
first even though `egg` is answered from the local knowledge base. -/
theorem rate_limiter_gating_witness :
    (handle_safety_question envSafety ["egg"] 0).2.1.head? = some (Event.rateCheck true) :=
  (rate_limiter_gating envSafety "can i eat egg" "safety_check" none (.strs []) [] 0
    ["egg"]).2.2

set_option maxRecDepth 8000 in
/-- C6 counterexample: on `why eat egg` (benefits intent, `egg` unknown
locally) the execution calls the external model with no rate-limiter check
at all, so the trace is not solar-gated; on `can i eat egg` (safety
intent, `egg` known locally) the execution consults the rate limiter yet
never calls the external model. -/
theorem answer_question_gating_counterexample :
    (answer_question envBenefits "why eat egg" none none none 0).2.1 =
      [Event.solarCall
        "What are the nutritional benefits and risks of eating egg during pregnancy?"] ∧
    solarGated (answer_question envBenefits "why eat egg" none none none 0).2.1 = false ∧
    (answer_question envSafety "can i eat egg" none none none 0).2.1 =
      [Event.rateCheck true] ∧
    (answer_question envSafety "can i eat egg" none none none 0).2.1.all
      (fun e => !isSolar e) = true :=
  ⟨by decide, by decide, by decide, by decide⟩

theorem append_ne_empty {a : String} (b : String) (ha : a ≠ "") : a ++ b ≠ "" := by
  intro h
  apply ha
  have hd : a.data ++ b.data = [] := by
    rw [← String.data_append]
    exact congrArg String.data h
  have ha2 : a.data = [] := (List.append_eq_nil.mp hd).1
  ext1
  simpa using ha2

theorem general_answer_ne_empty (intent : String) (trimester : Option Nat) :
    get_general_answer intent trimester ≠ "" := by
  unfold get_general_answer
  split_ifs
  · decide
  · decide
  · exact append_ne_empty _ (append_ne_empty _ (by decide))
  · decide
  · decide
  · decide
  · decide
  · decide

theorem strip_nonempty_ne {s : String} (h : (pyStrip s).isEmpty = false) : s ≠ "" := by
  intro hc
  rw [hc] at h
  exact absurd h (by decide)

theorem compose_answer_ne_empty (env : ChatEnv) (question intent : String)
    (trimester : Option Nat) (answer_parts : PyStrOrList) (evs : List Event) (n : Nat)
    (hsolar : env.solar = fun _ => "") :
    (compose_answer env question intent trimester answer_parts evs n).1 ≠ "" := by
  have hqs : env.solar question = "" := by rw [hsolar]
  unfold compose_answer
  by_cases h1 : answer_parts.falsy = true
  · by_cases h2 : env.rateOk n = true
    · simp only [h1, if_true, h2, hqs]
      simp only [show (!("" : String).isEmpty) = false from rfl, Bool.false_eq_true, if_false]
      exact general_answer_ne_empty intent trimester
    · simp only [h1, if_true, h2, Bool.false_eq_true, if_false]
      exact general_answer_ne_empty intent trimester
  · by_cases h4 : (pyStrip (if truthyN trimester = true
        then answer_parts.joinNl ++ "\n\n💡 Tip: Always consult your doctor before making major dietary changes."
        else answer_parts.joinNl)).isEmpty = true
    · by_cases h2 : env.rateOk n = true
      · simp only [h1, Bool.false_eq_true, if_false, h4, if_true, h2, hqs]
        simp only [show (!("" : String).isEmpty) = false from rfl, Bool.false_eq_true, if_false]
        exact general_answer_ne_empty intent trimester
      · simp only [h1, Bool.false_eq_true, if_false, h4, if_true, h2]
        exact general_answer_ne_empty intent trimester
    · simp only [h1, Bool.false_eq_true, if_false, h4]
      exact strip_nonempty_ne (Bool.eq_false_iff.mpr h4)

/-- C7: the fallback adapter makes at most one request attempt (no
retries); on a timeout or transport error it returns the empty string
rather than raising; every canned general answer is non-empty; and when
the external model is unavailable (`_ask_solar` returning `""` on every
prompt), `answer_question` still returns a non-empty answer — a fallback
failure is never surfaced to the caller as a hard failure. -/
theorem fallback_failure_is_soft :
    (∀ (avail : Bool) (o : SolarOutcome), ask_solar_attempts avail o ≤ 1) ∧
    (∀ avail : Bool, ask_solar avail .timeout = "" ∧ ask_solar avail .transportError = "") ∧
    (∀ (intent : String) (trimester : Option Nat), get_general_answer intent trimester ≠ "") ∧
    (∀ (env : ChatEnv) (question : String) (trimester : Option Nat)
       (region season : Option String) (n : Nat), env.solar = (fun _ => "") →
      (answer_question env question trimester region season n).1 ≠ "") := by
  refine ⟨?_, ?_, general_answer_ne_empty, ?_⟩
  · intro avail o
    cases avail <;> simp [ask_solar_attempts]
  · intro avail
    cases avail <;> exact ⟨rfl, rfl⟩
  · intro env question trimester region season n hsolar
    unfold answer_question
    simp only []
    split_ifs <;>
      first
        | exact general_answer_ne_empty _ _
        | exact compose_answer_ne_empty _ _ _ _ _ _ _ hsolar

/-- Witness for C7: with the external model unavailable, a concrete
question still gets a non-empty answer. -/
theorem fallback_failure_is_soft_witness :
    (answer_question envNoSolar "hello there" none none none 0).1 ≠ "" :=
  fallback_failure_is_soft.2.2.2 envNoSolar "hello there" none none none 0 rfl

theorem scached_consistent (meals : List Meal) (table cache : List (String × List Meal))
    (maxSize : Nat) (region diet_type : Option String) (trimester : Option Nat)
    (season condition meal_type : Option String)
    (hmem : (cacheKey region diet_type trimester season condition meal_type,
        search_with_filters meals region diet_type trimester season condition meal_type) ∈ table)
    (hag : agreesWith cache table) (hfun : tableFunctional table) :
    (search_with_filters_cached meals cache maxSize region diet_type trimester season
        condition meal_type).1 =
      search_with_filters meals region diet_type trimester season condition meal_type ∧
    agreesWith (search_with_filters_cached meals cache maxSize region diet_type trimester
        season condition meal_type).2 table := by
  unfold search_with_filters_cached
  simp only []
  cases hfind : dictGet cache (cacheKey region diet_type trimester season condition meal_type) with
  | some v =>
    simp only [hfind]
    have hv : v = search_with_filters meals region diet_type trimester season condition meal_type := by
      unfold dictGet at hfind
      cases hf : List.find? (fun p =>
          p.1 == cacheKey region diet_type trimester season condition meal_type) cache with
      | none => rw [hf] at hfind; exact absurd hfind (by simp)
      | some e =>
        rw [hf] at hfind
        have he : e.2 = v := by simpa using hfind
        have hkey : e.1 = cacheKey region diet_type trimester season condition meal_type := by
          simpa using List.find?_some hf
        rw [← he]
        exact hag e (List.mem_of_find?_eq_some hf) _ hmem hkey
    exact ⟨hv, hag⟩
  | none =>
    simp only [hfind]
    by_cases hsz : cache.length < maxSize
    · simp only [hsz, if_true]
      refine ⟨trivial, ?_⟩
      intro p hp q hq hpq
      rcases List.mem_append.mp hp with h | h
      · exact hag p h q hq hpq
      · have hpe : p = (cacheKey region diet_type trimester season condition meal_type,
            search_with_filters meals region diet_type trimester season condition meal_type) := by
          simpa using h
        subst hpe
        exact hfun _ hmem q hq hpq
    · simp only [hsz, if_false]
      exact ⟨trivial, hag⟩

theorem cstep4 (meals : List Meal) (cc : List (String × List Meal)) (maxSize : Nat)
    (region diet_type : Option String) (trimester : Option Nat)
    (season condition meal_type : Option String)
    (hag : agreesWith cc (keyTable meals region diet_type trimester season condition meal_type))
    (hfun : tableFunctional (keyTable meals region diet_type trimester season condition meal_type)) :
    (let p4 := if truthyS meal_type then
        search_with_filters_cached meals cc maxSize region diet_type none none none none
      else ([], cc)
     if !p4.1.isEmpty then p4
     else search_with_filters_cached meals p4.2 maxSize region diet_type none none none none).1 =
    (let r4 := if truthyS meal_type then
        search_with_filters meals region diet_type none none none none
      else []
     if !r4.isEmpty then r4
     else search_with_filters meals region diet_type none none none none) := by
  have hm4 : (cacheKey region diet_type none none none none,
      search_with_filters meals region diet_type none none none none) ∈
      keyTable meals region diet_type trimester season condition meal_type := by
    simp [keyTable]
  cases hm : truthyS meal_type with
  | false =>
    obtain ⟨e4, hag4⟩ := scached_consistent meals _ cc maxSize region diet_type none none none
      none hm4 hag hfun
    simp only [hm, Bool.false_eq_true, if_false, List.isEmpty_nil, Bool.not_true]
    simpa using e4
  | true =>
    obtain ⟨e4, hag4⟩ := scached_consistent meals _ cc maxSize region diet_type none none none
      none hm4 hag hfun
    cases h4 : (search_with_filters meals region diet_type none none none none).isEmpty with
    | false => simp only [hm, if_true, e4, h4, Bool.not_false, if_true]
    | true =>
      obtain ⟨e5, _⟩ := scached_consistent meals _
        ((search_with_filters_cached meals cc maxSize region diet_type none none none none).2)
        maxSize region diet_type none none none none hm4 hag4 hfun
      simp only [hm, if_true, e4, h4, Bool.not_true, if_false]
      exact e5

theorem cstep3 (meals : List Meal) (cc : List (String × List Meal)) (maxSize : Nat)
    (region diet_type : Option String) (trimester : Option Nat)
    (season condition meal_type : Option String)
    (hag : agreesWith cc (keyTable meals region diet_type trimester season condition meal_type))
    (hfun : tableFunctional (keyTable meals region diet_type trimester season condition meal_type)) :
    (let p3 := if truthyN trimester then
        search_with_filters_cached meals cc maxSize region diet_type none none none meal_type
      else ([], cc)
     if !p3.1.isEmpty then p3
     else
       let p4 := if truthyS meal_type then
           search_with_filters_cached meals p3.2 maxSize region diet_type none none none none
         else ([], p3.2)
       if !p4.1.isEmpty then p4
       else search_with_filters_cached meals p4.2 maxSize region diet_type none none none none).1 =
    (let r3 := if truthyN trimester then
        search_with_filters meals region diet_type none none none meal_type
      else []
     if !r3.isEmpty then r3
     else
       let r4 := if truthyS meal_type then
           search_with_filters meals region diet_type none none none none
         else []
       if !r4.isEmpty then r4
       else search_with_filters meals region diet_type none none none none) := by
  have hm3 : (cacheKey region diet_type none none none meal_type,
      search_with_filters meals region diet_type none none none meal_type) ∈
      keyTable meals region diet_type trimester season condition meal_type := by
    simp [keyTable]
  cases ht : truthyN trimester with
  | false =>
    simp only [ht, Bool.false_eq_true, if_false, List.isEmpty_nil, Bool.not_true]
    exact cstep4 meals cc maxSize region diet_type trimester season condition meal_type hag hfun
  | true =>
    obtain ⟨e3, hag3⟩ := scached_consistent meals _ cc maxSize region diet_type none none none
      meal_type hm3 hag hfun
    cases h3 : (search_with_filters meals region diet_type none none none meal_type).isEmpty with
    | false => simp only [ht, if_true, e3, h3, Bool.not_false]
    | true =>
      simp only [ht, if_true, e3, h3, Bool.not_true, if_false]
      exact cstep4 meals _ maxSize region diet_type trimester season condition meal_type hag3 hfun

theorem cstep2 (meals : List Meal) (cc : List (String × List Meal)) (maxSize : Nat)
    (region diet_type : Option String) (trimester : Option Nat)
    (season condition meal_type : Option String)
    (hag : agreesWith cc (keyTable meals region diet_type trimester season condition meal_type))
    (hfun : tableFunctional (keyTable meals region diet_type trimester season condition meal_type)) :
    (let p2 := if truthyS condition then
        search_with_filters_cached meals cc maxSize region diet_type trimester none none meal_type
      else ([], cc)
     if !p2.1.isEmpty then p2
     else
       let p3 := if truthyN trimester then
           search_with_filters_cached meals p2.2 maxSize region diet_type none none none meal_type
         else ([], p2.2)
       if !p3.1.isEmpty then p3
       else
         let p4 := if truthyS meal_type then
             search_with_filters_cached meals p3.2 maxSize region diet_type none none none none
           else ([], p3.2)
         if !p4.1.isEmpty then p4
         else search_with_filters_cached meals p4.2 maxSize region diet_type none none none none).1 =
    (let r2 := if truthyS condition then
        search_with_filters meals region diet_type trimester none none meal_type
      else []
     if !r2.isEmpty then r2
     else
       let r3 := if truthyN trimester then
           search_with_filters meals region diet_type none none none meal_type
         else []
       if !r3.isEmpty then r3
       else
         let r4 := if truthyS meal_type then
             search_with_filters meals region diet_type none none none none
           else []
         if !r4.isEmpty then r4
         else search_with_filters meals region diet_type none none none none) := by
  have hm2 : (cacheKey region diet_type trimester none none meal_type,
      search_with_filters meals region diet_type trimester none none meal_type) ∈
      keyTable meals region diet_type trimester season condition meal_type := by
    simp [keyTable]
  cases hc : truthyS condition with
  | false =>
    simp only [hc, Bool.false_eq_true, if_false, List.isEmpty_nil, Bool.not_true]
    exact cstep3 meals cc maxSize region diet_type trimester season condition meal_type hag hfun
  | true =>
    obtain ⟨e2, hag2⟩ := scached_consistent meals _ cc maxSize region diet_type trimester none
      none meal_type hm2 hag hfun
    cases h2 : (search_with_filters meals region diet_type trimester none none meal_type).isEmpty with
    | false => simp only [hc, if_true, e2, h2, Bool.not_false]
    | true =>
      simp only [hc, if_true, e2, h2, Bool.not_true, if_false]
      exact cstep3 meals _ maxSize region diet_type trimester season condition meal_type hag2 hfun

theorem get_meals_by_preference_cached_eq (meals : List Meal)
    (cache : List (String × List Meal)) (maxSize : Nat)
    (region diet_type : Option String) (trimester : Option Nat)
    (season condition meal_type : Option String)
    (hag : agreesWith cache (keyTable meals region diet_type trimester season condition meal_type))
    (hfun : tableFunctional (keyTable meals region diet_type trimester season condition meal_type)) :
    (get_meals_by_preference_cached meals cache maxSize region diet_type trimester season
        condition meal_type).1 =
      get_meals_by_preference meals region diet_type trimester season condition meal_type := by
  have hm0 : (cacheKey region diet_type trimester season condition meal_type,
      search_with_filters meals region diet_type trimester season condition meal_type) ∈
      keyTable meals region diet_type trimester season condition meal_type := by
    simp [keyTable]
  have hm1 : (cacheKey region diet_type trimester none condition meal_type,
      search_with_filters meals region diet_type trimester none condition meal_type) ∈
      keyTable meals region diet_type trimester season condition meal_type := by
    simp [keyTable]
  obtain ⟨e0, hag0⟩ := scached_consistent meals _ cache maxSize region diet_type trimester
    season condition meal_type hm0 hag hfun
  unfold get_meals_by_preference_cached get_meals_by_preference
  cases h0 : (search_with_filters meals region diet_type trimester season condition meal_type).isEmpty with
  | false => simp only [e0, h0, Bool.not_false, if_true]
  | true =>
    simp only [e0, h0, Bool.not_true, Bool.false_eq_true, if_false]
    cases hs : truthyS season with
    | false =>
      simp only [hs, Bool.false_eq_true, if_false, List.isEmpty_nil, Bool.not_true]
      exact cstep2 meals _ maxSize region diet_type trimester season condition meal_type hag0 hfun
    | true =>
      obtain ⟨e1, hag1⟩ := scached_consistent meals _
        ((search_with_filters_cached meals cache maxSize region diet_type trimester season
          condition meal_type).2) maxSize region diet_type trimester none condition meal_type
        hm1 hag0 hfun
      cases h1 : (search_with_filters meals region diet_type trimester none condition meal_type).isEmpty with
      | false => simp only [hs, if_true, e1, h1, Bool.not_false]
      | true =>
        simp only [hs, if_true, e1, h1, Bool.not_true, Bool.false_eq_true, if_false]
        exact cstep2 meals _ maxSize region diet_type trimester season condition meal_type hag1 hfun

/-- C1 (amended): provided the preference cache holds no stale colliding
entry for the query's keys (`agreesWith`) and the query's own five passes
collide only harmlessly (`tableFunctional`) — in particular on a fresh
loader whose cache is empty and whose pass keys are collision-free —
`get_meals_by_preference` returns the first (most specific) non-empty of
the five relaxation levels, never dropping region or diet, and the empty
list when even the region+diet level is empty; the level list has exactly
five entries, bounding the filter passes.  Because the cache key is not
injective, a colliding entry breaks this (see the counterexample). -/
theorem get_meals_by_preference_cached_progressive_relaxation (meals : List Meal)
    (cache : List (String × List Meal)) (maxSize : Nat)
    (region diet_type : Option String) (trimester : Option Nat)
    (season condition meal_type : Option String)
    (hag : agreesWith cache (keyTable meals region diet_type trimester season condition meal_type))
    (hfun : tableFunctional (keyTable meals region diet_type trimester season condition meal_type)) :
    (get_meals_by_preference_cached meals cache maxSize region diet_type trimester season
        condition meal_type).1 =
      firstNonemptyLevel (relaxationLevels meals region diet_type trimester season condition
        meal_type) ∧
    (relaxationLevels meals region diet_type trimester season condition meal_type).length = 5 :=
  ⟨(get_meals_by_preference_cached_eq meals cache maxSize region diet_type trimester season
      condition meal_type hag hfun).trans
    (get_meals_by_preference_relaxation meals region diet_type trimester season condition
      meal_type),
   rfl⟩

/-- Witness for C1 (amended) on a fresh loader with an empty cache. -/
theorem get_meals_cached_relaxation_witness :
    (get_meals_by_preference_cached [mealA] [] 100 (some "north") (some "veg") (some 2)
        (some "summer") none none).1 =
      firstNonemptyLevel (relaxationLevels [mealA] (some "north") (some "veg") (some 2)
        (some "summer") none none) :=
  (get_meals_by_preference_cached_progressive_relaxation [mealA] [] 100 (some "north")
    (some "veg") (some 2) (some "summer") none none (by decide) (by decide)).1

/-- C1 counterexample: the cache key is not injective — the string
`meal_type="None"` keys identically to the region+diet-only tuple — so one
fresh call `get_meals_by_preference(region="North", diet_type="veg",
meal_type="None")` first stores the empty fully-constrained result and
then serves it back, stale, at the meal-type relaxation and the final
region+diet pass: the program returns `[]` although the region+diet level
(the first non-empty level) holds the record. -/
theorem get_meals_by_preference_cached_stale_counterexample :
    (get_meals_by_preference_cached [mealC] [] 100 (some "North") (some "veg") none none none
        (some "None")).1 = [] ∧
    firstNonemptyLevel (relaxationLevels [mealC] (some "North") (some "veg") none none none
        (some "None")) = [mealC] ∧
    search_with_filters [mealC] (some "North") (some "veg") none none none none = [mealC] :=
  ⟨by decide, by decide, by decide⟩

/-- C2 (amended): whenever the cache holds no stale entry colliding with
the call's own key (in particular on a miss or a fresh loader), every
record returned by the cached preference filter under optional constraints
is also in the pinned region+diet-only filter result.  A colliding stale
entry breaks the inclusion (see the counterexample). -/
theorem search_with_filters_cached_subset_pinned (meals : List Meal)
    (cache : List (String × List Meal)) (maxSize : Nat)
    (region diet_type : Option String) (trimester : Option Nat)
    (season condition meal_type : Option String) (meal : Meal)
    (hag : ∀ p ∈ cache, p.1 = cacheKey region diet_type trimester season condition meal_type →
      p.2 = search_with_filters meals region diet_type trimester season condition meal_type)
    (h : meal ∈ (search_with_filters_cached meals cache maxSize region diet_type trimester
        season condition meal_type).1) :
    meal ∈ search_with_filters meals region diet_type none none none none := by
  have hfresh := scached_consistent meals
    [(cacheKey region diet_type trimester season condition meal_type,
      search_with_filters meals region diet_type trimester season condition meal_type)]
    cache maxSize region diet_type trimester season condition meal_type
    (List.mem_cons_self _ _)
    (fun p hp q hq hpq => by
      have hq2 : q = (cacheKey region diet_type trimester season condition meal_type,
          search_with_filters meals region diet_type trimester season condition meal_type) := by
        simpa using hq
      rw [hq2]
      exact hag p hp (by rw [hq2] at hpq; simpa using hpq))
    (fun p hp q hq hpq => by
      have hp2 : p = (cacheKey region diet_type trimester season condition meal_type,
          search_with_filters meals region diet_type trimester season condition meal_type) := by
        simpa using hp
      have hq2 : q = (cacheKey region diet_type trimester season condition meal_type,
          search_with_filters meals region diet_type trimester season condition meal_type) := by
        simpa using hq
      rw [hp2, hq2])
  rw [hfresh.1] at h
  exact search_with_filters_subset_pinned meals region diet_type trimester season condition
    meal_type meal h

/-- Witness for C2 (amended) on an empty cache. -/
theorem search_cached_subset_pinned_witness :
    mealA ∈ search_with_filters [mealA] (some "north") (some "veg") none none none none :=
  search_with_filters_cached_subset_pinned [mealA] [] 100 (some "north") (some "veg") (some 2)
    (some "summer") (some "diabetes") (some "lunch") mealA
    (fun p hp => absurd hp (List.not_mem_nil p)) (by decide)

/-- C2 counterexample: a prior pass for the tuple `("North", "veg_2",
trimester=3)` stores its result under `"North_veg_2_3_None_None_None"` —
the same key the tuple `("North_veg", "2", trimester=3)` computes — so the
later constrained call serves the stale list containing a
`source_diet="veg"` record that the pinned `("North_veg", "2")` filter
(fresh or cached, whose key differs) excludes: the claimed subset
inclusion fails on the program. -/
theorem search_with_filters_cached_stale_counterexample :
    (search_with_filters_cached [mealD]
        ((search_with_filters_cached [mealD] [] 100 (some "North") (some "veg_2") (some 3)
          none none none).2)
        100 (some "North_veg") (some "2") (some 3) none none none).1 = [mealD] ∧
    search_with_filters [mealD] (some "North_veg") (some "2") none none none none = [] ∧
    (search_with_filters_cached [mealD]
        ((search_with_filters_cached [mealD] [] 100 (some "North") (some "veg_2") (some 3)
          none none none).2)
        100 (some "North_veg") (some "2") none none none none).1 = [] :=
  ⟨by decide, by decide, by decide⟩
